import Mathlib

/-!
Shallow embedding of the type declarations of the `moontai0724/DefinitelyTyped`
snapshot (OpenAPI / Swagger document types) and verification of the claims of
its specification.

Modelling conventions, used uniformly below:

* a TypeScript interface is modelled as a Lean structure carrying exactly the
  declared fields (the "closed record" reading of a `.d.ts` interface, which
  matches excess-property checking of object literals);
* an optional field `f?: T` becomes `f : Option T`;
* a field typed `f?: never` becomes `f : Option Empty` - no value can ever be
  present, matching the `never` exclusion pattern of the source;
* a string- or boolean-literal field type such as `in: 'path'` or
  `required: true` becomes `Lit "path"` / `Lit true`, a singleton type whose
  only value renders to the literal;
* a union type becomes an inductive with one constructor per member;
* `Record<string, T>` becomes `List (String × T)`;
* `any` becomes `Json`, a generic JSON value type; TypeScript `number` is
  modelled as `JSNumber := Int` (no arithmetic on these values occurs
  anywhere, only their presence and kind matter);
* the `[key: string]` / template-literal index signatures become lists of
  tagged entries (`ExtEntry`, `PathsEntry`, ...).

Three families are embedded, mirroring the source layout:

* `OA`   - the `types/openapis` package (root document, parameters, media
  types, paths, references, examples) together with its 3.0-style schema
  family from `types/openapis/schema.d.ts`;
* `V31`  - the 3.1-style schema family (the JSON Schema 2020-12 superset
  variant shipped alongside the response module);
* `SW`   - the legacy `types/swagger-schema-official` package.
-/

/-- A generic JSON value, the model of TypeScript `any`. -/
inductive Json where
  | null : Json
  | bool : Bool → Json
  | num : Int → Json
  | str : String → Json
  | arr : List Json → Json
  | obj : List (String × Json) → Json

/-- Boolean prefix test on character lists (used instead of
`String.startsWith`, which does not reduce well definitionally). -/
def isPrefixCharList : List Char → List Char → Bool
  | [], _ => true
  | _ :: _, [] => false
  | c :: cs, d :: ds => (c == d) && isPrefixCharList cs ds

/-- Whether the part of an extension key after `x-` starts with one of the
reserved prefixes `oai-` / `oas-` of the OpenAPI Initiative. -/
def reservedPrefix (r : String) : Bool :=
  isPrefixCharList "oai-".data r.data || isPrefixCharList "oas-".data r.data

/-- TypeScript `number`, modelled as `Int` (only presence and kind of these
values matter in the embedded declarations, never arithmetic). -/
abbrev JSNumber := Int

/-- A singleton type for a TypeScript literal type: `Lit "path"` models the
string-literal type `'path'` and `Lit true` models the boolean-literal type
`true`. Its sole inhabitant renders to the literal via `Lit.val`. -/
structure Lit {α : Type} (a : α) where
  mk ::
deriving DecidableEq

/-- The value denoted by a literal-type field. -/
def Lit.val {α : Type} {a : α} (_ : Lit a) : α := a

namespace OA

/-- One extension entry of an `Extendable` object of
`types/openapis/common.d.ts`: the full key is `"x-" ++ rest`. Keys matching
`x-oai-` or `x-oas-` are declared `never` in the source (a property at such a
key satisfies both the reserved index signature and the generic `x-` one, so
its type intersects to `never`); no entry can exist at them, which the
`notReserved` constraint captures. Every other `x-` key holds `any`. -/
structure ExtEntry where
  rest : String
  value : Json
  notReserved : reservedPrefix rest = false

/-- The extension entries carried by a type extending `Extendable`. -/
abbrev Extensions := List ExtEntry

/-- `ExternalDocs` of `types/openapis/common.d.ts`. -/
structure ExternalDocs where
  extensions : Extensions
  description : Option String
  url : String

/-- `Reference` of `types/openapis/reference.d.ts`: a required `$ref` (field
`ref` here, `$` is not a legal Lean identifier character) plus the optional
3.1 `summary` and `description` overrides. -/
structure Reference where
  ref : String
  summary : Option String
  description : Option String

/-- `InlineExample` of the openapis example module (embedded in
`types/openapis/openapi.d.ts`): `BaseExample` with the `value` override; the
`externalValue` key stays `never`. -/
structure InlineExample where
  extensions : Extensions
  summary : Option String
  description : Option String
  value : Option Json
  externalValue : Option Empty

/-- `ExternalExample` of the openapis example module: `BaseExample` with the
`externalValue` override; the `value` key stays `never`. -/
structure ExternalExample where
  extensions : Extensions
  summary : Option String
  description : Option String
  value : Option Empty
  externalValue : Option String

/-- `Example = InlineExample | ExternalExample` of the openapis example
module. -/
inductive Example where
  | inline : InlineExample → Example
  | external : ExternalExample → Example

/-- Whether an openapis `Example` value carries the `value` field. -/
def Example.hasValue : Example → Bool
  | .inline e => e.value.isSome
  | .external e => e.value.isSome

/-- Whether an openapis `Example` value carries the `externalValue` field. -/
def Example.hasExternalValue : Example → Bool
  | .inline e => e.externalValue.isSome
  | .external e => e.externalValue.isSome

end OA

namespace OA30

/-- `Extendable` of the 3.0-variant common module of the openapis package
(the related `common.d.ts` embedded in `types/openapis/path.d.ts`, lines
116-118): it declares only the generic index signature `[key: x-${string}]:
any` and no reserved `x-oai-` / `x-oas-` `never` signatures, so every `x-`
key - including reserved-prefixed ones - admits an arbitrary value. -/
structure ExtEntry where
  rest : String
  value : Json

end OA30

namespace SW

/-- One extension entry of an `Extendable` object of
`types/swagger-schema-official/common.d.ts`, which declares the same reserved
`x-oai-` / `x-oas-` `never` index signatures as the openapis common module
next to the generic `[key: x-${string}]: any` one. -/
structure ExtEntry where
  rest : String
  value : Json
  notReserved : reservedPrefix rest = false

/-- The extension entries carried by a type extending the legacy
`Extendable`. -/
abbrev Extensions := List ExtEntry

/-- `ExternalDocs` of `types/swagger-schema-official/common.d.ts`. -/
structure ExternalDocs where
  extensions : Extensions
  description : Option String
  url : String

/-- `Reference` of `types/swagger-schema-official/reference.d.ts`: the
required `$ref` (named `ref` here) plus optional `summary` and `description`
overrides - the legacy declaration carries the same two optional sibling
fields as the openapis one. -/
structure Reference where
  ref : String
  summary : Option String
  description : Option String

/-- `BaseExample` of `types/swagger-schema-official/example.d.ts`. -/
structure BaseExample where
  extensions : Extensions
  summary : Option String
  description : Option String

/-- `InlineExample` of `types/swagger-schema-official/example.d.ts`: extends
`BaseExample` with an optional `value` and declares no `externalValue`
field. -/
structure InlineExample where
  extensions : Extensions
  summary : Option String
  description : Option String
  value : Option Json

/-- `ExternalExample` of `types/swagger-schema-official/example.d.ts`:
extends `BaseExample` with an optional `externalValue` and declares no
`value` field. -/
structure ExternalExample where
  extensions : Extensions
  summary : Option String
  description : Option String
  externalValue : Option String

/-- `Example = InlineExample | ExternalExample` of
`types/swagger-schema-official/example.d.ts`. -/
inductive Example where
  | inline : InlineExample → Example
  | external : ExternalExample → Example

/-- Whether a legacy `Example` value carries the `value` field (the
`ExternalExample` interface declares none). -/
def Example.hasValue : Example → Bool
  | .inline e => e.value.isSome
  | .external _ => false

/-- Whether a legacy `Example` value carries the `externalValue` field (the
`InlineExample` interface declares none). -/
def Example.hasExternalValue : Example → Bool
  | .inline _ => false
  | .external e => e.externalValue.isSome

end SW

namespace V30

/-- `Discriminator` of `types/openapis/schema.d.ts` (extends `Extendable`). -/
structure Discriminator where
  extensions : OA.Extensions
  propertyName : String
  mapping : Option (List (String × String))

/-- `XML` of `types/openapis/schema.d.ts` (extends `Extendable`). The fields
`namespace`, `prefix` and `attribute` collide with Lean keywords and are
suffixed with an underscore. -/
structure XML where
  extensions : OA.Extensions
  name : Option String
  namespace_ : Option String
  prefix_ : Option String
  attribute_ : Option Bool
  wrapped : Option Bool

/-- `SchemaType` of `types/openapis/schema.d.ts`: the 3.0-style type keyword
values - note there is no `'null'` member. -/
inductive SchemaType where
  | string | number | integer | boolean | array | object
deriving DecidableEq

/-- The string literal denoted by a 3.0-style `SchemaType` member. -/
def SchemaType.render : SchemaType → String
  | .string => "string"
  | .number => "number"
  | .integer => "integer"
  | .boolean => "boolean"
  | .array => "array"
  | .object => "object"

/-- `SchemaNumberFormat = 'float' | 'double'`. -/
inductive SchemaNumberFormat where
  | float | double
deriving DecidableEq

/-- `SchemaIntegerFormat = 'int32' | 'int64'`. -/
inductive SchemaIntegerFormat where
  | int32 | int64
deriving DecidableEq

/-- `OneOfSchema` of `types/openapis/schema.d.ts`, flattened: `BaseSchema`
(`title?`, `description?`, all other keywords `never`), the
`BaseComposition` `discriminator?` override and the required `oneOf` list.
`Array<Schema | Reference>` coincides with `Array<Schema>` because the
`Schema` union already contains `Reference`; `S` is the sub-schema knot. -/
structure OneOfSchemaF (S : Type) where
  title : Option String
  description : Option String
  discriminator : Option Discriminator
  oneOf : List S

/-- `AnyOfSchema` of `types/openapis/schema.d.ts`, flattened like
`OneOfSchemaF`. -/
structure AnyOfSchemaF (S : Type) where
  title : Option String
  description : Option String
  discriminator : Option Discriminator
  anyOf : List S

/-- `AllOfSchema` of `types/openapis/schema.d.ts`, flattened like
`OneOfSchemaF`. -/
structure AllOfSchemaF (S : Type) where
  title : Option String
  description : Option String
  discriminator : Option Discriminator
  allOf : List S

/-- `NotSchema` of `types/openapis/schema.d.ts`: `BaseSchema` plus the
required `not` sub-schema (no `discriminator`, which only `BaseComposition`
adds). -/
structure NotSchemaF (S : Type) where
  title : Option String
  description : Option String
  not : S

/-- `NumberSchema` of `types/openapis/schema.d.ts`, flattened: the
`TypedSchema` keywords (`title?`, `description?`, `nullable?`, `readOnly?`,
`writeOnly?`, `xml?`, `externalDocs?`, `example?`, `deprecated?`, `enum?`)
with `type` narrowed to the literal `'number'`, the `BaseNumberSchema`
numeric keywords - `exclusiveMaximum` and `exclusiveMinimum` are declared
`boolean` in this 3.0-style family - and the `format` / `default`
overrides. -/
structure NumberSchema where
  title : Option String
  description : Option String
  type : Option (Lit "number")
  nullable : Option Bool
  readOnly : Option Bool
  writeOnly : Option Bool
  xml : Option XML
  externalDocs : Option OA.ExternalDocs
  example_ : Option Json
  deprecated : Option Bool
  enum : Option (List Json)
  multipleOf : Option JSNumber
  maximum : Option JSNumber
  exclusiveMaximum : Option Bool
  minimum : Option JSNumber
  exclusiveMinimum : Option Bool
  format : Option SchemaNumberFormat
  default : Option JSNumber

/-- `IntegerSchema` of `types/openapis/schema.d.ts`: like `NumberSchema`
with `type: 'integer'` and integer formats. -/
structure IntegerSchema where
  title : Option String
  description : Option String
  type : Option (Lit "integer")
  nullable : Option Bool
  readOnly : Option Bool
  writeOnly : Option Bool
  xml : Option XML
  externalDocs : Option OA.ExternalDocs
  example_ : Option Json
  deprecated : Option Bool
  enum : Option (List Json)
  multipleOf : Option JSNumber
  maximum : Option JSNumber
  exclusiveMaximum : Option Bool
  minimum : Option JSNumber
  exclusiveMinimum : Option Bool
  format : Option SchemaIntegerFormat
  default : Option JSNumber

/-- `StringSchema` of `types/openapis/schema.d.ts`. -/
structure StringSchema where
  title : Option String
  description : Option String
  type : Option (Lit "string")
  nullable : Option Bool
  readOnly : Option Bool
  writeOnly : Option Bool
  xml : Option XML
  externalDocs : Option OA.ExternalDocs
  example_ : Option Json
  deprecated : Option Bool
  enum : Option (List Json)
  format : Option String
  maxLength : Option JSNumber
  minLength : Option JSNumber
  pattern : Option String
  default : Option String

/-- `BooleanSchema` of `types/openapis/schema.d.ts`. -/
structure BooleanSchema where
  title : Option String
  description : Option String
  type : Option (Lit "boolean")
  nullable : Option Bool
  readOnly : Option Bool
  writeOnly : Option Bool
  xml : Option XML
  externalDocs : Option OA.ExternalDocs
  example_ : Option Json
  deprecated : Option Bool
  enum : Option (List Json)
  default : Option Bool

/-- `ArraySchema` of `types/openapis/schema.d.ts`: note that `items` is a
mandatory field (`items: CompositionSchema | NormalSchema | Reference`,
i.e. a sub-schema, with no `?`). -/
structure ArraySchemaF (S : Type) where
  title : Option String
  description : Option String
  type : Option (Lit "array")
  nullable : Option Bool
  readOnly : Option Bool
  writeOnly : Option Bool
  xml : Option XML
  externalDocs : Option OA.ExternalDocs
  example_ : Option Json
  deprecated : Option Bool
  enum : Option (List Json)
  items : S
  maxItems : Option JSNumber
  minItems : Option JSNumber
  uniqueItems : Option Bool
  default : Option (List Json)

/-- `ObjectSchema` of `types/openapis/schema.d.ts`: note that `properties`
is a mandatory field (`properties: Record<string, Schema>`, no `?`). -/
structure ObjectSchemaF (S : Type) where
  title : Option String
  description : Option String
  type : Option (Lit "object")
  nullable : Option Bool
  readOnly : Option Bool
  writeOnly : Option Bool
  xml : Option XML
  externalDocs : Option OA.ExternalDocs
  example_ : Option Json
  deprecated : Option Bool
  enum : Option (List Json)
  properties : List (String × S)
  required : Option (List String)
  default : Option Json

/-- `FreeFormObjectSchema` of `types/openapis/schema.d.ts`: the object
variant without a `properties` map, carrying `additionalProperties?:
boolean | Schema` instead. -/
structure FreeFormObjectSchemaF (S : Type) where
  title : Option String
  description : Option String
  type : Option (Lit "object")
  nullable : Option Bool
  readOnly : Option Bool
  writeOnly : Option Bool
  xml : Option XML
  externalDocs : Option OA.ExternalDocs
  example_ : Option Json
  deprecated : Option Bool
  enum : Option (List Json)
  additionalProperties : Option (Bool ⊕ S)
  maxProperties : Option JSNumber
  minProperties : Option JSNumber
  default : Option Json

/-- The 3.0-style `Schema` union of `types/openapis/schema.d.ts`:
`CompositionSchema (OneOf | AnyOf | AllOf | Not) | NormalSchema (Number |
Integer | String | Boolean | Array | Object | FreeFormObject) |
Reference`. -/
inductive Schema where
  | oneOfS : OneOfSchemaF Schema → Schema
  | anyOfS : AnyOfSchemaF Schema → Schema
  | allOfS : AllOfSchemaF Schema → Schema
  | notS : NotSchemaF Schema → Schema
  | numberS : NumberSchema → Schema
  | integerS : IntegerSchema → Schema
  | stringS : StringSchema → Schema
  | booleanS : BooleanSchema → Schema
  | arrayS : ArraySchemaF Schema → Schema
  | objectS : ObjectSchemaF Schema → Schema
  | freeFormS : FreeFormObjectSchemaF Schema → Schema
  | refS : OA.Reference → Schema

/-- `OneOfSchema` with the knot tied. -/
abbrev OneOfSchema := OneOfSchemaF Schema
/-- `AnyOfSchema` with the knot tied. -/
abbrev AnyOfSchema := AnyOfSchemaF Schema
/-- `AllOfSchema` with the knot tied. -/
abbrev AllOfSchema := AllOfSchemaF Schema
/-- `NotSchema` with the knot tied. -/
abbrev NotSchema := NotSchemaF Schema
/-- `ArraySchema` with the knot tied. -/
abbrev ArraySchema := ArraySchemaF Schema
/-- `ObjectSchema` with the knot tied. -/
abbrev ObjectSchema := ObjectSchemaF Schema
/-- `FreeFormObjectSchema` with the knot tied. -/
abbrev FreeFormObjectSchema := FreeFormObjectSchemaF Schema

/-- Whether a 3.0-style `Schema` value is the `ArraySchema` variant. -/
def Schema.isArrayVariant : Schema → Bool
  | .arrayS _ => true
  | _ => false

/-- Whether a 3.0-style `Schema` value is the `ObjectSchema` variant. -/
def Schema.isObjectVariant : Schema → Bool
  | .objectS _ => true
  | _ => false

/-- Whether a 3.0-style `Schema` value is the `FreeFormObjectSchema`
variant. -/
def Schema.isFreeFormVariant : Schema → Bool
  | .freeFormS _ => true
  | _ => false

/-- The `items` sub-schema of a 3.0-style `Schema` value, when the variant
declares one. -/
def Schema.itemsOf : Schema → Option Schema
  | .arrayS a => some a.items
  | _ => none

/-- The enumerated `properties` map of a 3.0-style `Schema` value, when the
variant declares one. -/
def Schema.propertiesOf : Schema → Option (List (String × Schema))
  | .objectS o => some o.properties
  | _ => none

/-- The `exclusiveMaximum` keyword of a 3.0-style `Schema` value - a
boolean, per `BaseNumberSchema`. -/
def Schema.exclusiveMaximumOf : Schema → Option Bool
  | .numberS n => n.exclusiveMaximum
  | .integerS n => n.exclusiveMaximum
  | _ => none

/-- The `exclusiveMinimum` keyword of a 3.0-style `Schema` value - a
boolean, per `BaseNumberSchema`. -/
def Schema.exclusiveMinimumOf : Schema → Option Bool
  | .numberS n => n.exclusiveMinimum
  | .integerS n => n.exclusiveMinimum
  | _ => none

/-- The `nullable` keyword of a 3.0-style `Schema` value - a boolean,
declared on `TypedSchema` and hence on every normal variant. -/
def Schema.nullableOf : Schema → Option Bool
  | .numberS n => n.nullable
  | .integerS n => n.nullable
  | .stringS n => n.nullable
  | .booleanS n => n.nullable
  | .arrayS n => n.nullable
  | .objectS n => n.nullable
  | .freeFormS n => n.nullable
  | _ => none

end V30

namespace OA

/-- `ParameterLocation = 'path' | 'query' | 'header' | 'cookie'` of
`types/openapis/parameter.d.ts`. -/
inductive ParameterLocation where
  | path | query | header | cookie
deriving DecidableEq

/-- `PathParameterStyle = SimpleStyle | LabelStyle | MatrixStyle` of
`types/openapis/parameter.d.ts`. -/
inductive PathParameterStyle where
  | simple | label | matrix
deriving DecidableEq

/-- `QueryParameterStyle = FormStyle | SpaceDelimitedStyle |
PipeDelimitedStyle | DeepObjectStyle` of `types/openapis/parameter.d.ts`. -/
inductive QueryParameterStyle where
  | form | spaceDelimited | pipeDelimited | deepObject
deriving DecidableEq

/-- `HeaderParameterStyle = SimpleStyle`, the single literal `'simple'`. -/
abbrev HeaderParameterStyle := Lit "simple"

/-- `CookieParameterStyle = FormStyle`, the single literal `'form'`. -/
abbrev CookieParameterStyle := Lit "form"

/-- `AnyEncoding` of `types/openapis/media.d.ts`: `BaseEncoding`
(`contentType?`) with `headers`, `style`, `explode` and `allowReserved` all
`never`. -/
structure AnyEncoding where
  extensions : Extensions
  contentType : Option String
  headers : Option Empty
  style : Option Empty
  explode : Option Empty
  allowReserved : Option Empty

/-- `MultiPartFormEncoding` of `types/openapis/media.d.ts`: adds the
`headers` map (`Record<string, Header | Reference>`, `H` is the `Header`
knot) and keeps `style` / `explode` / `allowReserved` `never`. -/
structure MultiPartFormEncodingF (H : Type) where
  extensions : Extensions
  contentType : Option String
  headers : Option (List (String × (H ⊕ Reference)))
  style : Option Empty
  explode : Option Empty
  allowReserved : Option Empty

/-- `ApplicationXWwwFormUrlEncodedEncoding` of `types/openapis/media.d.ts`:
keeps `headers` `never` and adds query-style serialization fields. -/
structure ApplicationXWwwFormUrlEncodedEncoding where
  extensions : Extensions
  contentType : Option String
  headers : Option Empty
  style : Option QueryParameterStyle
  explode : Option Bool
  allowReserved : Option Bool

/-- `MediaTypeWithExample` of `types/openapis/media.d.ts`: `BaseMediaType`
(`schema?`, `encoding?`, both `example` and `examples` `never`) with the
`example` override; `examples` stays `never`. `schema?: Schema | Reference`
coincides with `Option V30.Schema` because the `Schema` union already
contains `Reference`; `E` is the `Encoding` knot. -/
structure MediaTypeWithExampleF (E : Type) where
  extensions : Extensions
  schema : Option V30.Schema
  encoding : Option (List (String × E))
  example_ : Option Json
  examples : Option Empty

/-- `MediaTypeWithExamples` of `types/openapis/media.d.ts`: the `examples`
override; `example` stays `never`. -/
structure MediaTypeWithExamplesF (E : Type) where
  extensions : Extensions
  schema : Option V30.Schema
  encoding : Option (List (String × E))
  example_ : Option Empty
  examples : Option (List (String × (Example ⊕ Reference)))

/-- The simple variant of the openapis `Header` object
(`Omit<SimpleHeaderParameter, 'name' | 'in'>`): retains the header `style`,
`explode`, `schema`, `example`, `examples`; `allowEmptyValue`,
`allowReserved` and `content` are `never`. -/
structure SimpleHeaderF where
  extensions : Extensions
  description : Option String
  required : Option Bool
  deprecated : Option Bool
  allowEmptyValue : Option Empty
  style : Option HeaderParameterStyle
  explode : Option Bool
  allowReserved : Option Empty
  schema : Option V30.Schema
  example_ : Option Json
  examples : Option (List (String × (Example ⊕ Reference)))
  content : Option Empty

/-- The complex variant of the openapis `Header` object
(`Omit<ComplexHeaderParameter, 'name' | 'in'>`): only `content` is a real
payload field; `M` is the `MediaType` knot. -/
structure ComplexHeaderF (M : Type) where
  extensions : Extensions
  description : Option String
  required : Option Bool
  deprecated : Option Bool
  allowEmptyValue : Option Empty
  style : Option HeaderParameterStyle
  explode : Option Empty
  allowReserved : Option Empty
  schema : Option Empty
  example_ : Option Empty
  examples : Option Empty
  content : Option (List (String × M))

mutual
/-- `MediaType = MediaTypeWithExample | MediaTypeWithExamples` of
`types/openapis/media.d.ts`. -/
inductive MediaType where
  | withExample : MediaTypeWithExampleF Encoding → MediaType
  | withExamples : MediaTypeWithExamplesF Encoding → MediaType

/-- `Encoding = AnyEncoding | MultiPartFormEncoding |
ApplicationXWwwFormUrlEncodedEncoding` of `types/openapis/media.d.ts`. -/
inductive Encoding where
  | anyE : AnyEncoding → Encoding
  | multiPartForm : MultiPartFormEncodingF Header → Encoding
  | urlEncoded : ApplicationXWwwFormUrlEncodedEncoding → Encoding

/-- The openapis `Header` object (the header module re-exported next to the
server module): `HeaderParameter` without `name` and `in`. -/
inductive Header where
  | simple : SimpleHeaderF → Header
  | complex : ComplexHeaderF MediaType → Header
end

/-- `MediaTypeMap` of `types/openapis/media.d.ts`: `[mediaType: string]:
MediaType`. -/
abbrev MediaTypeMap := List (String × MediaType)

/-- Whether an openapis `MediaType` value carries the `example` field (it is
`never` on the `MediaTypeWithExamples` variant). -/
def MediaType.hasExample : MediaType → Bool
  | .withExample m => m.example_.isSome
  | .withExamples m => m.example_.isSome

/-- Whether an openapis `MediaType` value carries the `examples` field (it
is `never` on the `MediaTypeWithExample` variant). -/
def MediaType.hasExamples : MediaType → Bool
  | .withExample m => m.examples.isSome
  | .withExamples m => m.examples.isSome

/-- `SimplePathParameter` of `types/openapis/parameter.d.ts`, flattened:
`Omit<SimpleBaseParameter, keyof PathParameterOptions> &
PathParameterOptions`. The `in` field (a Lean keyword) is named `in_`; its
type is the literal `'path'` and `required` is the literal `true`. -/
structure SimplePathParameter where
  extensions : Extensions
  name : String
  in_ : Lit "path"
  description : Option String
  required : Lit true
  deprecated : Option Bool
  allowEmptyValue : Option Empty
  style : Option PathParameterStyle
  explode : Option Bool
  allowReserved : Option Empty
  schema : Option V30.Schema
  example_ : Option Json
  examples : Option (List (String × (Example ⊕ Reference)))
  content : Option Empty

/-- `ComplexPathParameter` of `types/openapis/parameter.d.ts`, flattened:
`Omit<ComplexBaseParameter, keyof PathParameterOptions> &
PathParameterOptions`; only `content` is a real payload field. -/
structure ComplexPathParameter where
  extensions : Extensions
  name : String
  in_ : Lit "path"
  description : Option String
  required : Lit true
  deprecated : Option Bool
  allowEmptyValue : Option Empty
  style : Option PathParameterStyle
  explode : Option Empty
  allowReserved : Option Empty
  schema : Option Empty
  example_ : Option Empty
  examples : Option Empty
  content : Option MediaTypeMap

/-- `SimpleQueryParameter` of `types/openapis/parameter.d.ts`, flattened:
`Omit<SimpleBaseParameter, keyof QueryParameterOptions> &
QueryParameterOptions`. -/
structure SimpleQueryParameter where
  extensions : Extensions
  name : String
  in_ : Lit "query"
  description : Option String
  required : Option Bool
  deprecated : Option Bool
  allowEmptyValue : Option Bool
  style : Option QueryParameterStyle
  explode : Option Bool
  allowReserved : Option Bool
  schema : Option V30.Schema
  example_ : Option Json
  examples : Option (List (String × (Example ⊕ Reference)))
  content : Option Empty

/-- `ComplexQueryParameter` of `types/openapis/parameter.d.ts`,
flattened. -/
structure ComplexQueryParameter where
  extensions : Extensions
  name : String
  in_ : Lit "query"
  description : Option String
  required : Option Bool
  deprecated : Option Bool
  allowEmptyValue : Option Bool
  style : Option QueryParameterStyle
  explode : Option Empty
  allowReserved : Option Bool
  schema : Option Empty
  example_ : Option Empty
  examples : Option Empty
  content : Option MediaTypeMap

/-- `SimpleHeaderParameter` of `types/openapis/parameter.d.ts`,
flattened. -/
structure SimpleHeaderParameter where
  extensions : Extensions
  name : String
  in_ : Lit "header"
  description : Option String
  required : Option Bool
  deprecated : Option Bool
  allowEmptyValue : Option Empty
  style : Option HeaderParameterStyle
  explode : Option Bool
  allowReserved : Option Empty
  schema : Option V30.Schema
  example_ : Option Json
  examples : Option (List (String × (Example ⊕ Reference)))
  content : Option Empty

/-- `ComplexHeaderParameter` of `types/openapis/parameter.d.ts`,
flattened. -/
structure ComplexHeaderParameter where
  extensions : Extensions
  name : String
  in_ : Lit "header"
  description : Option String
  required : Option Bool
  deprecated : Option Bool
  allowEmptyValue : Option Empty
  style : Option HeaderParameterStyle
  explode : Option Empty
  allowReserved : Option Empty
  schema : Option Empty
  example_ : Option Empty
  examples : Option Empty
  content : Option MediaTypeMap

/-- `SimpleCookieParameter` of `types/openapis/parameter.d.ts`,
flattened. -/
structure SimpleCookieParameter where
  extensions : Extensions
  name : String
  in_ : Lit "cookie"
  description : Option String
  required : Option Bool
  deprecated : Option Bool
  allowEmptyValue : Option Empty
  style : Option CookieParameterStyle
  explode : Option Bool
  allowReserved : Option Empty
  schema : Option V30.Schema
  example_ : Option Json
  examples : Option (List (String × (Example ⊕ Reference)))
  content : Option Empty

/-- `ComplexCookieParameter` of `types/openapis/parameter.d.ts`,
flattened. -/
structure ComplexCookieParameter where
  extensions : Extensions
  name : String
  in_ : Lit "cookie"
  description : Option String
  required : Option Bool
  deprecated : Option Bool
  allowEmptyValue : Option Empty
  style : Option CookieParameterStyle
  explode : Option Empty
  allowReserved : Option Empty
  schema : Option Empty
  example_ : Option Empty
  examples : Option Empty
  content : Option MediaTypeMap

/-- `PathParameter = SimplePathParameter | ComplexPathParameter`. -/
inductive PathParameter where
  | simple : SimplePathParameter → PathParameter
  | complex : ComplexPathParameter → PathParameter

/-- `QueryParameter = SimpleQueryParameter | ComplexQueryParameter`. -/
inductive QueryParameter where
  | simple : SimpleQueryParameter → QueryParameter
  | complex : ComplexQueryParameter → QueryParameter

/-- `HeaderParameter = SimpleHeaderParameter | ComplexHeaderParameter`. -/
inductive HeaderParameter where
  | simple : SimpleHeaderParameter → HeaderParameter
  | complex : ComplexHeaderParameter → HeaderParameter

/-- `CookieParameter = SimpleCookieParameter | ComplexCookieParameter`. -/
inductive CookieParameter where
  | simple : SimpleCookieParameter → CookieParameter
  | complex : ComplexCookieParameter → CookieParameter

/-- `Parameter = PathParameter | QueryParameter | HeaderParameter |
CookieParameter` of `types/openapis/parameter.d.ts`. -/
inductive Parameter where
  | path : PathParameter → Parameter
  | query : QueryParameter → Parameter
  | header : HeaderParameter → Parameter
  | cookie : CookieParameter → Parameter

/-- Whether an openapis `Parameter` value carries the `schema` field (it is
`never` on every complex variant). -/
def Parameter.hasSchema : Parameter → Bool
  | .path (.simple p) => p.schema.isSome
  | .path (.complex p) => p.schema.isSome
  | .query (.simple p) => p.schema.isSome
  | .query (.complex p) => p.schema.isSome
  | .header (.simple p) => p.schema.isSome
  | .header (.complex p) => p.schema.isSome
  | .cookie (.simple p) => p.schema.isSome
  | .cookie (.complex p) => p.schema.isSome

/-- Whether an openapis `Parameter` value carries the `content` field (it is
`never` on every simple variant, inherited from `BaseParameter`). -/
def Parameter.hasContent : Parameter → Bool
  | .path (.simple p) => p.content.isSome
  | .path (.complex p) => p.content.isSome
  | .query (.simple p) => p.content.isSome
  | .query (.complex p) => p.content.isSome
  | .header (.simple p) => p.content.isSome
  | .header (.complex p) => p.content.isSome
  | .cookie (.simple p) => p.content.isSome
  | .cookie (.complex p) => p.content.isSome

/-- Whether an openapis `Parameter` value carries the `example` field. -/
def Parameter.hasExample : Parameter → Bool
  | .path (.simple p) => p.example_.isSome
  | .path (.complex p) => p.example_.isSome
  | .query (.simple p) => p.example_.isSome
  | .query (.complex p) => p.example_.isSome
  | .header (.simple p) => p.example_.isSome
  | .header (.complex p) => p.example_.isSome
  | .cookie (.simple p) => p.example_.isSome
  | .cookie (.complex p) => p.example_.isSome

/-- Whether an openapis `Parameter` value carries the `examples` field. -/
def Parameter.hasExamples : Parameter → Bool
  | .path (.simple p) => p.examples.isSome
  | .path (.complex p) => p.examples.isSome
  | .query (.simple p) => p.examples.isSome
  | .query (.complex p) => p.examples.isSome
  | .header (.simple p) => p.examples.isSome
  | .header (.complex p) => p.examples.isSome
  | .cookie (.simple p) => p.examples.isSome
  | .cookie (.complex p) => p.examples.isSome

/-- The `name` of an openapis `Parameter` value. -/
def Parameter.nameOf : Parameter → String
  | .path (.simple p) => p.name
  | .path (.complex p) => p.name
  | .query (.simple p) => p.name
  | .query (.complex p) => p.name
  | .header (.simple p) => p.name
  | .header (.complex p) => p.name
  | .cookie (.simple p) => p.name
  | .cookie (.complex p) => p.name

/-- The `in` location of an openapis `Parameter` value, determined by its
variant's literal `in` type. -/
def Parameter.locationOf : Parameter → ParameterLocation
  | .path _ => .path
  | .query _ => .query
  | .header _ => .header
  | .cookie _ => .cookie

/-- The identifying `(name, location)` pair of an openapis `Parameter`. -/
def Parameter.keyOf (p : Parameter) : String × ParameterLocation :=
  (p.nameOf, p.locationOf)

/-- The value of the `required` field of an openapis `Parameter`, `none`
when absent; on both path variants the field's literal type forces
`some true`. -/
def Parameter.requiredValue : Parameter → Option Bool
  | .path (.simple p) => some p.required.val
  | .path (.complex p) => some p.required.val
  | .query (.simple p) => p.required
  | .query (.complex p) => p.required
  | .header (.simple p) => p.required
  | .header (.complex p) => p.required
  | .cookie (.simple p) => p.required
  | .cookie (.complex p) => p.required

/-- The value of the `required` field of an openapis `PathParameter`. -/
def PathParameter.requiredValue : PathParameter → Option Bool
  | .simple p => some p.required.val
  | .complex p => some p.required.val

end OA

namespace OA

/-- `ServerVariable` of `types/openapis/server.d.ts`. -/
structure ServerVariable where
  extensions : Extensions
  enum : Option (List String)
  default : String
  description : Option String

/-- `Server` of `types/openapis/server.d.ts`. The `variables` field is a
Lean command keyword and is suffixed with an underscore. -/
structure Server where
  extensions : Extensions
  url : String
  description : Option String
  variables_ : Option (List (String × ServerVariable))

/-- `Tag` of `types/openapis/tag.d.ts`. -/
structure Tag where
  extensions : Extensions
  name : String
  description : Option String
  externalDocs : Option ExternalDocs

/-- `Contact` of `types/openapis/info.d.ts`. -/
structure Contact where
  extensions : Extensions
  name : Option String
  url : Option String
  email : Option String

/-- `License` of `types/openapis/info.d.ts`. -/
structure License where
  extensions : Extensions
  name : String
  identifier : Option String
  url : Option String

/-- `Info` of `types/openapis/info.d.ts`. -/
structure Info where
  extensions : Extensions
  title : String
  summary : Option String
  description : Option String
  termsOfService : Option String
  contact : Option Contact
  license : Option License
  version : String

/-- `RequestBody` of `types/openapis/request.d.ts`: note `content` is
mandatory. -/
structure RequestBody where
  extensions : Extensions
  description : Option String
  content : MediaTypeMap
  required : Option Bool

/-- `ReferencedLink` of the openapis link module: `BaseLink` (both
`operationRef` and `operationId` `never`) with the `operationRef`
override. -/
structure ReferencedLink where
  extensions : Extensions
  operationRef : Option String
  operationId : Option Empty
  parameters : Option (List (String × Json))
  requestBody : Option Json
  description : Option String
  server : Option Server

/-- `IdSpecifiedLink` of the openapis link module: the `operationId`
override. -/
structure IdSpecifiedLink where
  extensions : Extensions
  operationRef : Option Empty
  operationId : Option String
  parameters : Option (List (String × Json))
  requestBody : Option Json
  description : Option String
  server : Option Server

/-- `Link = ReferencedLink | IdSpecifiedLink` of the openapis link
module. -/
inductive Link where
  | referenced : ReferencedLink → Link
  | idSpecified : IdSpecifiedLink → Link

/-- `Response` of `types/openapis/response.d.ts`: note `description` is
mandatory. -/
structure Response where
  extensions : Extensions
  description : String
  headers : Option (List (String × (Header ⊕ Reference)))
  content : Option (List (String × MediaType))
  links : Option (List (String × (Link ⊕ Reference)))

/-- `Responses` of `types/openapis/response.d.ts`: the optional `default`
member plus the status-code index signature `[code: string]: Response |
Reference | undefined` (an `undefined` value is an absent entry). -/
structure Responses where
  extensions : Extensions
  default : Option (Response ⊕ Reference)
  codes : List (String × (Response ⊕ Reference))

/-- Modelled from the spec: `types/openapis/security.d.ts` is not part of
the source snapshot (only its importers are). The spec's data-model table
describes `SecurityRequirement` as a declaration referencing security
schemes by name with a list of scopes. -/
abbrev SecurityRequirement := List (String × List String)

/-- Modelled from the spec: `types/openapis/security.d.ts` is not part of
the source snapshot. The spec's data-model table gives a `SecurityScheme`
with a scheme `type`, OAuth `flows` and `scopes`. -/
structure SecurityScheme where
  extensions : Extensions
  type : String
  flows : Option Json
  scopes : Option (List String)

/-- Modelled from the spec: `types/openapis/operation.d.ts` is not part of
the source snapshot (only `path.d.ts` which imports it is). The spec's
data-model table gives an `Operation` with `operationId`, `parameters`,
`requestBody`, `responses`, `callbacks` and `security`; `CB` is the
`Callback` knot. -/
structure OperationF (CB : Type) where
  extensions : Extensions
  operationId : Option String
  parameters : Option (List (Parameter ⊕ Reference))
  requestBody : Option (RequestBody ⊕ Reference)
  responses : Option Responses
  callbacks : Option (List (String × (CB ⊕ Reference)))
  security : Option (List SecurityRequirement)

/-- `PathItem` of `types/openapis/path.d.ts` (extends `Referable` and
`Extendable`): the optional `$ref` (named `ref`), descriptive fields, one
optional operation per HTTP method, `server` and the shared `parameters`
list; `OP` is the `Operation` knot. -/
structure PathItemF (OP : Type) where
  extensions : Extensions
  ref : Option String
  summary : Option String
  description : Option String
  get : Option OP
  put : Option OP
  post : Option OP
  delete : Option OP
  options : Option OP
  head : Option OP
  patch : Option OP
  trace : Option OP
  server : Option (List Server)
  parameters : Option (List (Parameter ⊕ Reference))

/-- `Callback` of `types/openapis/callback.d.ts` (extends `Extendable`):
the runtime-expression index signature `[url: string]: PathItem`; `PI` is
the `PathItem` knot. -/
structure CallbackF (PI : Type) where
  extensions : Extensions
  entries : List (String × PI)

mutual
/-- The `PathItem` knot of `types/openapis/path.d.ts`. -/
inductive PathItem where
  | mk : PathItemF Operation → PathItem

/-- The `Operation` knot (modelled from the spec, see `OperationF`). -/
inductive Operation where
  | mk : OperationF Callback → Operation

/-- The `Callback` knot of `types/openapis/callback.d.ts`. -/
inductive Callback where
  | mk : CallbackF PathItem → Callback
end

/-- The `parameters` list of an openapis `PathItem`. -/
def PathItem.parametersOf : PathItem → Option (List (Parameter ⊕ Reference))
  | .mk f => f.parameters

/-- One entry of a `Paths` object of `types/openapis/path.d.ts`: either a
path entry, whose key matches the template-literal index signature
`[pathName: /${string}]: PathItem` (full key `"/" ++ rest`), or a
specification-extension entry of `Extendable` (full key `"x-" ++ e.rest`).
No other key shape is declared, so no other entry form exists. -/
inductive PathsEntry where
  | path : (rest : String) → (item : PathItem) → PathsEntry
  | ext : (e : ExtEntry) → PathsEntry

/-- The full key string of a `Paths` entry. -/
def PathsEntry.key : PathsEntry → String
  | .path rest _ => "/" ++ rest
  | .ext e => "x-" ++ e.rest

/-- `Paths` of `types/openapis/path.d.ts`. -/
structure Paths where
  entries : List PathsEntry

/-- `Components` of `types/openapis/openapi.d.ts`. The sub-schema unions
`T | Reference` are kept as sums; `Schema | Reference` coincides with
`V30.Schema`, which already embeds `Reference`. -/
structure Components where
  extensions : Extensions
  schemas : Option (List (String × V30.Schema))
  responses : Option (List (String × (Response ⊕ Reference)))
  parameters : Option (List (String × (Parameter ⊕ Reference)))
  examples : Option (List (String × (Example ⊕ Reference)))
  requestBodies : Option (List (String × (RequestBody ⊕ Reference)))
  headers : Option (List (String × (Header ⊕ Reference)))
  securitySchemes : Option (List (String × (SecurityScheme ⊕ Reference)))
  links : Option (List (String × (Link ⊕ Reference)))
  callbacks : Option (List (String × (Callback ⊕ Reference)))
  pathItems : Option (List (String × (PathItem ⊕ Reference)))

/-- The template-literal type `3.${string}.${string}` of the `openapi`
version field of `types/openapis/openapi.d.ts`: a value is given by the two
interpolated segments and denotes the rendered version string. -/
structure VersionTemplate where
  seg1 : String
  seg2 : String

/-- The version string denoted by a value of the `openapi` field's
template-literal type. -/
def VersionTemplate.render (v : VersionTemplate) : String :=
  "3." ++ v.seg1 ++ "." ++ v.seg2

/-- `OpenAPI` of `types/openapis/openapi.d.ts`, the root document object.
`openapi` and `info` are mandatory; `jsonSchemaDialect` and `webhooks` are
declared as plain optional fields, not conditioned on the `openapi`
value. -/
structure OpenAPI where
  extensions : Extensions
  openapi : VersionTemplate
  info : Info
  jsonSchemaDialect : Option String
  servers : Option (List Server)
  paths : Option Paths
  webhooks : Option (List (String × (PathItem ⊕ Reference)))
  components : Option Components
  security : Option (List SecurityRequirement)
  tags : Option (List Tag)
  externalDocs : Option ExternalDocs

end OA

/-- The singleton key list `[k]` when `present` is true, else `[]` - used to
collect the present top-level keys of an embedded schema node. -/
def optKey (k : String) (present : Bool) : List String :=
  cond present [k] []

namespace V31

/-- `Discriminator` of the 3.1-style schema module (extends `Extendable`). -/
structure Discriminator where
  extensions : OA.Extensions
  propertyName : String
  mapping : Option (List (String × String))

/-- `XML` of the 3.1-style schema module (extends `Extendable`). -/
structure XML where
  extensions : OA.Extensions
  name : Option String
  namespace_ : Option String
  prefix_ : Option String
  attribute_ : Option Bool
  wrapped : Option Bool

/-- `SchemaType` of the 3.1-style schema module: unlike the 3.0-style
enumeration it contains the `'null'` member. -/
inductive SchemaType where
  | string | number | integer | boolean | array | object | null
deriving DecidableEq

/-- The string literal denoted by a 3.1-style `SchemaType` member. -/
def SchemaType.render : SchemaType → String
  | .string => "string"
  | .number => "number"
  | .integer => "integer"
  | .boolean => "boolean"
  | .array => "array"
  | .object => "object"
  | .null => "null"

/-- `SchemaNumberFormat = 'float' | 'double'` (3.1 module). -/
inductive SchemaNumberFormat where
  | float | double
deriving DecidableEq

/-- `SchemaIntegerFormat = 'int32' | 'int64'` (3.1 module). -/
inductive SchemaIntegerFormat where
  | int32 | int64
deriving DecidableEq

/-- `OneOfSchema` of the 3.1-style schema module, flattened: the
`BaseSchema` JSON Schema 2020-12 core keywords (the `$`-prefixed source
names carry a `Kw` suffix here: `schemaKw` is `$schema` and so on), the
`BaseComposition` `discriminator` and the required `oneOf` list. -/
structure OneOfSchemaF (S : Type) where
  title : Option String
  description : Option String
  schemaKw : Option String
  vocabularyKw : Option (List (String × Bool))
  idKw : Option String
  anchorKw : Option String
  dynamicAnchorKw : Option String
  refKw : Option String
  dynamicRefKw : Option String
  defsKw : Option (List (String × S))
  commentKw : Option String
  discriminator : Option Discriminator
  oneOf : List S

/-- `AnyOfSchema` of the 3.1-style schema module, flattened. -/
structure AnyOfSchemaF (S : Type) where
  title : Option String
  description : Option String
  schemaKw : Option String
  vocabularyKw : Option (List (String × Bool))
  idKw : Option String
  anchorKw : Option String
  dynamicAnchorKw : Option String
  refKw : Option String
  dynamicRefKw : Option String
  defsKw : Option (List (String × S))
  commentKw : Option String
  discriminator : Option Discriminator
  anyOf : List S

/-- `AllOfSchema` of the 3.1-style schema module, flattened. -/
structure AllOfSchemaF (S : Type) where
  title : Option String
  description : Option String
  schemaKw : Option String
  vocabularyKw : Option (List (String × Bool))
  idKw : Option String
  anchorKw : Option String
  dynamicAnchorKw : Option String
  refKw : Option String
  dynamicRefKw : Option String
  defsKw : Option (List (String × S))
  commentKw : Option String
  discriminator : Option Discriminator
  allOf : List S

/-- `NotSchema` of the 3.1-style schema module: `BaseSchema` plus the
required `not` sub-schema. -/
structure NotSchemaF (S : Type) where
  title : Option String
  description : Option String
  schemaKw : Option String
  vocabularyKw : Option (List (String × Bool))
  idKw : Option String
  anchorKw : Option String
  dynamicAnchorKw : Option String
  refKw : Option String
  dynamicRefKw : Option String
  defsKw : Option (List (String × S))
  commentKw : Option String
  not : S

/-- `TypedSchema` of the 3.1-style schema module: the `BaseSchema` keywords
plus the merged declarations `type?: SchemaType | SchemaType[]`, the
annotation fields and the validation metadata - in particular `type` may be
an array of type names, which can include `'null'`. There is no `nullable`
member anywhere in this family. -/
structure TypedSchemaF (S : Type) where
  title : Option String
  description : Option String
  schemaKw : Option String
  vocabularyKw : Option (List (String × Bool))
  idKw : Option String
  anchorKw : Option String
  dynamicAnchorKw : Option String
  refKw : Option String
  dynamicRefKw : Option String
  defsKw : Option (List (String × S))
  commentKw : Option String
  type : Option (SchemaType ⊕ List SchemaType)
  xml : Option XML
  externalDocs : Option OA.ExternalDocs
  example_ : Option Json
  enum : Option (List Json)
  const : Option Json
  default : Option Json
  deprecated : Option Bool
  readOnly : Option Bool
  writeOnly : Option Bool
  examples : Option (List Json)

/-- `NumberSchema` of the 3.1-style schema module, flattened:
`Omit<BaseNumberSchema, 'format'>` plus the `type: 'number'`, `format` and
`default` overrides. In this family `exclusiveMaximum` and
`exclusiveMinimum` are declared `number`, not `boolean`. -/
structure NumberSchemaF (S : Type) where
  title : Option String
  description : Option String
  schemaKw : Option String
  vocabularyKw : Option (List (String × Bool))
  idKw : Option String
  anchorKw : Option String
  dynamicAnchorKw : Option String
  refKw : Option String
  dynamicRefKw : Option String
  defsKw : Option (List (String × S))
  commentKw : Option String
  type : Option (Lit "number")
  xml : Option XML
  externalDocs : Option OA.ExternalDocs
  example_ : Option Json
  enum : Option (List Json)
  const : Option Json
  deprecated : Option Bool
  readOnly : Option Bool
  writeOnly : Option Bool
  examples : Option (List Json)
  multipleOf : Option JSNumber
  maximum : Option JSNumber
  exclusiveMaximum : Option JSNumber
  minimum : Option JSNumber
  exclusiveMinimum : Option JSNumber
  format : Option SchemaNumberFormat
  default : Option JSNumber

/-- `IntegerSchema` of the 3.1-style schema module, flattened like
`NumberSchemaF` with integer formats. -/
structure IntegerSchemaF (S : Type) where
  title : Option String
  description : Option String
  schemaKw : Option String
  vocabularyKw : Option (List (String × Bool))
  idKw : Option String
  anchorKw : Option String
  dynamicAnchorKw : Option String
  refKw : Option String
  dynamicRefKw : Option String
  defsKw : Option (List (String × S))
  commentKw : Option String
  type : Option (Lit "integer")
  xml : Option XML
  externalDocs : Option OA.ExternalDocs
  example_ : Option Json
  enum : Option (List Json)
  const : Option Json
  deprecated : Option Bool
  readOnly : Option Bool
  writeOnly : Option Bool
  examples : Option (List Json)
  multipleOf : Option JSNumber
  maximum : Option JSNumber
  exclusiveMaximum : Option JSNumber
  minimum : Option JSNumber
  exclusiveMinimum : Option JSNumber
  format : Option SchemaIntegerFormat
  default : Option JSNumber

/-- `StringSchema` of the 3.1-style schema module, flattened. -/
structure StringSchemaF (S : Type) where
  title : Option String
  description : Option String
  schemaKw : Option String
  vocabularyKw : Option (List (String × Bool))
  idKw : Option String
  anchorKw : Option String
  dynamicAnchorKw : Option String
  refKw : Option String
  dynamicRefKw : Option String
  defsKw : Option (List (String × S))
  commentKw : Option String
  type : Option (Lit "string")
  xml : Option XML
  externalDocs : Option OA.ExternalDocs
  example_ : Option Json
  enum : Option (List Json)
  const : Option Json
  deprecated : Option Bool
  readOnly : Option Bool
  writeOnly : Option Bool
  examples : Option (List Json)
  format : Option String
  maxLength : Option JSNumber
  minLength : Option JSNumber
  pattern : Option String
  contentEncoding : Option String
  contentMediaType : Option String
  contentSchema : Option S
  default : Option String

/-- `BooleanSchema` of the 3.1-style schema module, flattened. -/
structure BooleanSchemaF (S : Type) where
  title : Option String
  description : Option String
  schemaKw : Option String
  vocabularyKw : Option (List (String × Bool))
  idKw : Option String
  anchorKw : Option String
  dynamicAnchorKw : Option String
  refKw : Option String
  dynamicRefKw : Option String
  defsKw : Option (List (String × S))
  commentKw : Option String
  type : Option (Lit "boolean")
  xml : Option XML
  externalDocs : Option OA.ExternalDocs
  example_ : Option Json
  enum : Option (List Json)
  const : Option Json
  deprecated : Option Bool
  readOnly : Option Bool
  writeOnly : Option Bool
  examples : Option (List Json)
  default : Option Bool

/-- `ArraySchema` of the 3.1-style schema module, flattened: the JSON
Schema 2020-12 array applicators; `items` is optional here, unlike the
3.0-style family. -/
structure ArraySchemaF (S : Type) where
  title : Option String
  description : Option String
  schemaKw : Option String
  vocabularyKw : Option (List (String × Bool))
  idKw : Option String
  anchorKw : Option String
  dynamicAnchorKw : Option String
  refKw : Option String
  dynamicRefKw : Option String
  defsKw : Option (List (String × S))
  commentKw : Option String
  type : Option (Lit "array")
  xml : Option XML
  externalDocs : Option OA.ExternalDocs
  example_ : Option Json
  enum : Option (List Json)
  const : Option Json
  deprecated : Option Bool
  readOnly : Option Bool
  writeOnly : Option Bool
  examples : Option (List Json)
  prefixItems : Option (List S)
  items : Option S
  contains : Option S
  unevaluatedItems : Option S
  maxItems : Option JSNumber
  minItems : Option JSNumber
  uniqueItems : Option Bool
  maxContains : Option JSNumber
  minContains : Option JSNumber
  default : Option (List Json)

/-- `ObjectSchema` of the 3.1-style schema module, flattened: the JSON
Schema 2020-12 object applicators; `properties` is optional here, unlike
the 3.0-style family. -/
structure ObjectSchemaF (S : Type) where
  title : Option String
  description : Option String
  schemaKw : Option String
  vocabularyKw : Option (List (String × Bool))
  idKw : Option String
  anchorKw : Option String
  dynamicAnchorKw : Option String
  refKw : Option String
  dynamicRefKw : Option String
  defsKw : Option (List (String × S))
  commentKw : Option String
  type : Option (Lit "object")
  xml : Option XML
  externalDocs : Option OA.ExternalDocs
  example_ : Option Json
  enum : Option (List Json)
  const : Option Json
  deprecated : Option Bool
  readOnly : Option Bool
  writeOnly : Option Bool
  examples : Option (List Json)
  properties : Option (List (String × S))
  patternProperties : Option (List (String × S))
  additionalProperties : Option S
  propertyNames : Option S
  unevaluatedProperties : Option S
  maxProperties : Option JSNumber
  minProperties : Option JSNumber
  required : Option (List String)
  dependentRequired : Option (List (String × List String))
  dependentSchemas : Option (List (String × S))
  default : Option Json

/-- The 3.1-style `Schema` union: `CompositionSchema (OneOf | AnyOf | AllOf
| Not) | NormalSchema (Number | Integer | String | Boolean | Array |
Object) | Reference` - there is no free-form object variant in this
family. -/
inductive Schema where
  | oneOfS : OneOfSchemaF Schema → Schema
  | anyOfS : AnyOfSchemaF Schema → Schema
  | allOfS : AllOfSchemaF Schema → Schema
  | notS : NotSchemaF Schema → Schema
  | numberS : NumberSchemaF Schema → Schema
  | integerS : IntegerSchemaF Schema → Schema
  | stringS : StringSchemaF Schema → Schema
  | booleanS : BooleanSchemaF Schema → Schema
  | arrayS : ArraySchemaF Schema → Schema
  | objectS : ObjectSchemaF Schema → Schema
  | refS : OA.Reference → Schema

/-- `TypedSchema` with the knot tied. -/
abbrev TypedSchema := TypedSchemaF Schema
/-- `NumberSchema` with the knot tied. -/
abbrev NumberSchema := NumberSchemaF Schema
/-- `IntegerSchema` with the knot tied. -/
abbrev IntegerSchema := IntegerSchemaF Schema

/-- The `exclusiveMaximum` keyword of a 3.1-style `Schema` value - a
number, per this family's `BaseNumberSchema`. -/
def Schema.exclusiveMaximumOf : Schema → Option JSNumber
  | .numberS n => n.exclusiveMaximum
  | .integerS n => n.exclusiveMaximum
  | _ => none

/-- The `exclusiveMinimum` keyword of a 3.1-style `Schema` value - a
number, per this family's `BaseNumberSchema`. -/
def Schema.exclusiveMinimumOf : Schema → Option JSNumber
  | .numberS n => n.exclusiveMinimum
  | .integerS n => n.exclusiveMinimum
  | _ => none

/-- The present top-level keys of the `BaseSchema` core-keyword fields of a
3.1-style node (a helper shared by all variants; the `Kw`-suffixed fields
denote the `$`-prefixed source keys). -/
def baseKeys (title description schemaKw idKw anchorKw dynamicAnchorKw
    refKw dynamicRefKw commentKw : Bool) (vocabularyKw defsKw : Bool) :
    List String :=
  optKey "title" title ++ optKey "description" description ++
  optKey "$schema" schemaKw ++ optKey "$vocabulary" vocabularyKw ++
  optKey "$id" idKw ++ optKey "$anchor" anchorKw ++
  optKey "$dynamicAnchor" dynamicAnchorKw ++ optKey "$ref" refKw ++
  optKey "$dynamicRef" dynamicRefKw ++ optKey "$defs" defsKw ++
  optKey "$comment" commentKw

/-- The present top-level keys of the annotation fields shared by the typed
variants of the 3.1-style family. -/
def typedKeys (type xml externalDocs example_ enum const default_
    deprecated readOnly writeOnly examples : Bool) : List String :=
  optKey "type" type ++ optKey "xml" xml ++
  optKey "externalDocs" externalDocs ++ optKey "example" example_ ++
  optKey "enum" enum ++ optKey "const" const ++
  optKey "default" default_ ++ optKey "deprecated" deprecated ++
  optKey "readOnly" readOnly ++ optKey "writeOnly" writeOnly ++
  optKey "examples" examples

/-- The list of top-level keys present on a 3.1-style `Schema` node,
mirroring the fields of each variant's interface. -/
def Schema.topKeys : Schema → List String
  | .oneOfS x =>
      baseKeys x.title.isSome x.description.isSome x.schemaKw.isSome
        x.idKw.isSome x.anchorKw.isSome x.dynamicAnchorKw.isSome
        x.refKw.isSome x.dynamicRefKw.isSome x.commentKw.isSome
        x.vocabularyKw.isSome x.defsKw.isSome ++
      optKey "discriminator" x.discriminator.isSome ++ ["oneOf"]
  | .anyOfS x =>
      baseKeys x.title.isSome x.description.isSome x.schemaKw.isSome
        x.idKw.isSome x.anchorKw.isSome x.dynamicAnchorKw.isSome
        x.refKw.isSome x.dynamicRefKw.isSome x.commentKw.isSome
        x.vocabularyKw.isSome x.defsKw.isSome ++
      optKey "discriminator" x.discriminator.isSome ++ ["anyOf"]
  | .allOfS x =>
      baseKeys x.title.isSome x.description.isSome x.schemaKw.isSome
        x.idKw.isSome x.anchorKw.isSome x.dynamicAnchorKw.isSome
        x.refKw.isSome x.dynamicRefKw.isSome x.commentKw.isSome
        x.vocabularyKw.isSome x.defsKw.isSome ++
      optKey "discriminator" x.discriminator.isSome ++ ["allOf"]
  | .notS x =>
      baseKeys x.title.isSome x.description.isSome x.schemaKw.isSome
        x.idKw.isSome x.anchorKw.isSome x.dynamicAnchorKw.isSome
        x.refKw.isSome x.dynamicRefKw.isSome x.commentKw.isSome
        x.vocabularyKw.isSome x.defsKw.isSome ++ ["not"]
  | .numberS x =>
      baseKeys x.title.isSome x.description.isSome x.schemaKw.isSome
        x.idKw.isSome x.anchorKw.isSome x.dynamicAnchorKw.isSome
        x.refKw.isSome x.dynamicRefKw.isSome x.commentKw.isSome
        x.vocabularyKw.isSome x.defsKw.isSome ++
      typedKeys x.type.isSome x.xml.isSome x.externalDocs.isSome
        x.example_.isSome x.enum.isSome x.const.isSome x.default.isSome
        x.deprecated.isSome x.readOnly.isSome x.writeOnly.isSome
        x.examples.isSome ++
      optKey "multipleOf" x.multipleOf.isSome ++
      optKey "maximum" x.maximum.isSome ++
      optKey "exclusiveMaximum" x.exclusiveMaximum.isSome ++
      optKey "minimum" x.minimum.isSome ++
      optKey "exclusiveMinimum" x.exclusiveMinimum.isSome ++
      optKey "format" x.format.isSome
  | .integerS x =>
      baseKeys x.title.isSome x.description.isSome x.schemaKw.isSome
        x.idKw.isSome x.anchorKw.isSome x.dynamicAnchorKw.isSome
        x.refKw.isSome x.dynamicRefKw.isSome x.commentKw.isSome
        x.vocabularyKw.isSome x.defsKw.isSome ++
      typedKeys x.type.isSome x.xml.isSome x.externalDocs.isSome
        x.example_.isSome x.enum.isSome x.const.isSome x.default.isSome
        x.deprecated.isSome x.readOnly.isSome x.writeOnly.isSome
        x.examples.isSome ++
      optKey "multipleOf" x.multipleOf.isSome ++
      optKey "maximum" x.maximum.isSome ++
      optKey "exclusiveMaximum" x.exclusiveMaximum.isSome ++
      optKey "minimum" x.minimum.isSome ++
      optKey "exclusiveMinimum" x.exclusiveMinimum.isSome ++
      optKey "format" x.format.isSome
  | .stringS x =>
      baseKeys x.title.isSome x.description.isSome x.schemaKw.isSome
        x.idKw.isSome x.anchorKw.isSome x.dynamicAnchorKw.isSome
        x.refKw.isSome x.dynamicRefKw.isSome x.commentKw.isSome
        x.vocabularyKw.isSome x.defsKw.isSome ++
      typedKeys x.type.isSome x.xml.isSome x.externalDocs.isSome
        x.example_.isSome x.enum.isSome x.const.isSome x.default.isSome
        x.deprecated.isSome x.readOnly.isSome x.writeOnly.isSome
        x.examples.isSome ++
      optKey "format" x.format.isSome ++
      optKey "maxLength" x.maxLength.isSome ++
      optKey "minLength" x.minLength.isSome ++
      optKey "pattern" x.pattern.isSome ++
      optKey "contentEncoding" x.contentEncoding.isSome ++
      optKey "contentMediaType" x.contentMediaType.isSome ++
      optKey "contentSchema" x.contentSchema.isSome
  | .booleanS x =>
      baseKeys x.title.isSome x.description.isSome x.schemaKw.isSome
        x.idKw.isSome x.anchorKw.isSome x.dynamicAnchorKw.isSome
        x.refKw.isSome x.dynamicRefKw.isSome x.commentKw.isSome
        x.vocabularyKw.isSome x.defsKw.isSome ++
      typedKeys x.type.isSome x.xml.isSome x.externalDocs.isSome
        x.example_.isSome x.enum.isSome x.const.isSome x.default.isSome
        x.deprecated.isSome x.readOnly.isSome x.writeOnly.isSome
        x.examples.isSome
  | .arrayS x =>
      baseKeys x.title.isSome x.description.isSome x.schemaKw.isSome
        x.idKw.isSome x.anchorKw.isSome x.dynamicAnchorKw.isSome
        x.refKw.isSome x.dynamicRefKw.isSome x.commentKw.isSome
        x.vocabularyKw.isSome x.defsKw.isSome ++
      typedKeys x.type.isSome x.xml.isSome x.externalDocs.isSome
        x.example_.isSome x.enum.isSome x.const.isSome x.default.isSome
        x.deprecated.isSome x.readOnly.isSome x.writeOnly.isSome
        x.examples.isSome ++
      optKey "prefixItems" x.prefixItems.isSome ++
      optKey "items" x.items.isSome ++
      optKey "contains" x.contains.isSome ++
      optKey "unevaluatedItems" x.unevaluatedItems.isSome ++
      optKey "maxItems" x.maxItems.isSome ++
      optKey "minItems" x.minItems.isSome ++
      optKey "uniqueItems" x.uniqueItems.isSome ++
      optKey "maxContains" x.maxContains.isSome ++
      optKey "minContains" x.minContains.isSome
  | .objectS x =>
      baseKeys x.title.isSome x.description.isSome x.schemaKw.isSome
        x.idKw.isSome x.anchorKw.isSome x.dynamicAnchorKw.isSome
        x.refKw.isSome x.dynamicRefKw.isSome x.commentKw.isSome
        x.vocabularyKw.isSome x.defsKw.isSome ++
      typedKeys x.type.isSome x.xml.isSome x.externalDocs.isSome
        x.example_.isSome x.enum.isSome x.const.isSome x.default.isSome
        x.deprecated.isSome x.readOnly.isSome x.writeOnly.isSome
        x.examples.isSome ++
      optKey "properties" x.properties.isSome ++
      optKey "patternProperties" x.patternProperties.isSome ++
      optKey "additionalProperties" x.additionalProperties.isSome ++
      optKey "propertyNames" x.propertyNames.isSome ++
      optKey "unevaluatedProperties" x.unevaluatedProperties.isSome ++
      optKey "maxProperties" x.maxProperties.isSome ++
      optKey "minProperties" x.minProperties.isSome ++
      optKey "required" x.required.isSome ++
      optKey "dependentRequired" x.dependentRequired.isSome ++
      optKey "dependentSchemas" x.dependentSchemas.isSome
  | .refS r =>
      ["$ref"] ++ optKey "summary" r.summary.isSome ++
      optKey "description" r.description.isSome

end V31

namespace SW

/-- `Discriminator` of the legacy schema module (`PropertyName` generic
instantiated at its `string` default). -/
structure Discriminator where
  extensions : Extensions
  propertyName : String
  mapping : Option (List (String × String))

/-- `XML` of the legacy schema module (extends `Extendable`). -/
structure XML where
  extensions : Extensions
  name : Option String
  namespace_ : Option String
  prefix_ : Option String
  attribute_ : Option Bool
  wrapped : Option Bool

/-- `SchemaType` of the legacy schema module - no `'null'` member. -/
inductive SchemaType where
  | string | number | integer | boolean | array | object
deriving DecidableEq

/-- The string literal denoted by a legacy `SchemaType` member. -/
def SchemaType.render : SchemaType → String
  | .string => "string"
  | .number => "number"
  | .integer => "integer"
  | .boolean => "boolean"
  | .array => "array"
  | .object => "object"

/-- `SchemaNumberFormat = 'float' | 'double'` (legacy module). -/
inductive SchemaNumberFormat where
  | float | double
deriving DecidableEq

/-- `SchemaIntegerFormat = 'int32' | 'int64'` (legacy module). -/
inductive SchemaIntegerFormat where
  | int32 | int64
deriving DecidableEq

/-- `PathParameterStyle = 'simple' | 'label' | 'matrix'` of
`types/swagger-schema-official/parameter.d.ts`. -/
inductive PathParameterStyle where
  | simple | label | matrix
deriving DecidableEq

/-- `QueryParameterStyle = 'form' | 'spaceDelimited' | 'pipeDelimited' |
'deepObject'` of `types/swagger-schema-official/parameter.d.ts`. -/
inductive QueryParameterStyle where
  | form | spaceDelimited | pipeDelimited | deepObject
deriving DecidableEq

/-- `HeaderParameterStyle = 'simple'` (legacy module). -/
abbrev HeaderParameterStyle := Lit "simple"

/-- `CookieParameterStyle = 'form'` (legacy module). -/
abbrev CookieParameterStyle := Lit "form"

/-- `ParameterStyle = PathParameterStyle | QueryParameterStyle |
HeaderParameterStyle | CookieParameterStyle` of
`types/swagger-schema-official/parameter.d.ts`: the union of the seven
distinct style literals. -/
inductive ParameterStyle where
  | simple | label | matrix | form | spaceDelimited | pipeDelimited
  | deepObject
deriving DecidableEq

/-- `OneOfSchema` of the legacy schema module, flattened: `BaseSchema`
(extends `Extendable`; `xml?`, `externalDocs?`, `example?`), the
`BaseComposition` `discriminator?` and the required `oneOf` list
(`Array<Schema | Reference>` coincides with `Array<Schema>` because the
legacy `NormalSchema` union already contains `Reference`). -/
structure OneOfSchemaF (S : Type) where
  extensions : Extensions
  xml : Option XML
  externalDocs : Option ExternalDocs
  example_ : Option Json
  discriminator : Option Discriminator
  oneOf : List S

/-- `AnyOfSchema` of the legacy schema module, flattened. -/
structure AnyOfSchemaF (S : Type) where
  extensions : Extensions
  xml : Option XML
  externalDocs : Option ExternalDocs
  example_ : Option Json
  discriminator : Option Discriminator
  anyOf : List S

/-- `AllOfSchema` of the legacy schema module, flattened. -/
structure AllOfSchemaF (S : Type) where
  extensions : Extensions
  xml : Option XML
  externalDocs : Option ExternalDocs
  example_ : Option Json
  discriminator : Option Discriminator
  allOf : List S

/-- `NotSchema` of the legacy schema module, flattened. -/
structure NotSchemaF (S : Type) where
  extensions : Extensions
  xml : Option XML
  externalDocs : Option ExternalDocs
  example_ : Option Json
  not : S

/-- `NumberSchema` of the legacy schema module, flattened over
`TypedSchema` (whose `type` member is mandatory in this family) -
`exclusiveMaximum` / `exclusiveMinimum` are booleans and `nullable` is the
3.0-style nullability keyword. -/
structure NumberSchema where
  extensions : Extensions
  xml : Option XML
  externalDocs : Option ExternalDocs
  example_ : Option Json
  type : Lit "number"
  nullable : Option Bool
  readOnly : Option Bool
  writeOnly : Option Bool
  format : Option SchemaNumberFormat
  minimum : Option JSNumber
  maximum : Option JSNumber
  exclusiveMaximum : Option Bool
  exclusiveMinimum : Option Bool
  multipleOf : Option JSNumber

/-- `IntegerSchema` of the legacy schema module, flattened. -/
structure IntegerSchema where
  extensions : Extensions
  xml : Option XML
  externalDocs : Option ExternalDocs
  example_ : Option Json
  type : Lit "integer"
  nullable : Option Bool
  readOnly : Option Bool
  writeOnly : Option Bool
  format : Option SchemaIntegerFormat
  minimum : Option JSNumber
  maximum : Option JSNumber
  exclusiveMaximum : Option Bool
  exclusiveMinimum : Option Bool
  multipleOf : Option JSNumber

/-- `StringSchema` of the legacy schema module, flattened
(`format?: SchemaStringFormat | string` widens to `string`). -/
structure StringSchema where
  extensions : Extensions
  xml : Option XML
  externalDocs : Option ExternalDocs
  example_ : Option Json
  type : Lit "string"
  nullable : Option Bool
  readOnly : Option Bool
  writeOnly : Option Bool
  format : Option String
  pattern : Option String
  minLength : Option JSNumber
  maxLength : Option JSNumber
  enum : Option (List String)

/-- `BooleanSchema` of the legacy schema module, flattened. -/
structure BooleanSchema where
  extensions : Extensions
  xml : Option XML
  externalDocs : Option ExternalDocs
  example_ : Option Json
  type : Lit "boolean"
  nullable : Option Bool
  readOnly : Option Bool
  writeOnly : Option Bool

/-- `ArraySchema` of the legacy schema module, flattened: `items:
CompositionSchema | NormalSchema[]` is mandatory - either one composition
schema or a list of normal schemas (`C` and `N` are the two knots). -/
structure ArraySchemaF (C N : Type) where
  extensions : Extensions
  xml : Option XML
  externalDocs : Option ExternalDocs
  example_ : Option Json
  type : Lit "array"
  nullable : Option Bool
  readOnly : Option Bool
  writeOnly : Option Bool
  items : C ⊕ List N
  maxItems : Option JSNumber
  minItems : Option JSNumber
  uniqueItems : Option Bool

/-- `ObjectSchema` of the legacy schema module, flattened: `properties` is
mandatory. -/
structure ObjectSchemaF (S : Type) where
  extensions : Extensions
  xml : Option XML
  externalDocs : Option ExternalDocs
  example_ : Option Json
  type : Lit "object"
  nullable : Option Bool
  readOnly : Option Bool
  writeOnly : Option Bool
  properties : List (String × S)
  required : Option (List String)

/-- `FreeFormObjectSchema` of the legacy schema module, flattened:
`additionalProperties?: true | Schema`. -/
structure FreeFormObjectSchemaF (S : Type) where
  extensions : Extensions
  xml : Option XML
  externalDocs : Option ExternalDocs
  example_ : Option Json
  type : Lit "object"
  nullable : Option Bool
  readOnly : Option Bool
  writeOnly : Option Bool
  additionalProperties : Option (Lit true ⊕ S)
  minProperties : Option JSNumber
  maxProperties : Option JSNumber

mutual
/-- `CompositionSchema = OneOfSchema | AnyOfSchema | AllOfSchema |
NotSchema` of the legacy schema module. -/
inductive CompositionSchema where
  | oneOfS : OneOfSchemaF Schema → CompositionSchema
  | anyOfS : AnyOfSchemaF Schema → CompositionSchema
  | allOfS : AllOfSchemaF Schema → CompositionSchema
  | notS : NotSchemaF Schema → CompositionSchema

/-- `NormalSchema = NumberSchema | IntegerSchema | StringSchema |
BooleanSchema | ArraySchema | ObjectSchema | FreeFormObjectSchema |
Reference` of the legacy schema module. -/
inductive NormalSchema where
  | numberS : NumberSchema → NormalSchema
  | integerS : IntegerSchema → NormalSchema
  | stringS : StringSchema → NormalSchema
  | booleanS : BooleanSchema → NormalSchema
  | arrayS : ArraySchemaF CompositionSchema NormalSchema → NormalSchema
  | objectS : ObjectSchemaF Schema → NormalSchema
  | freeFormS : FreeFormObjectSchemaF Schema → NormalSchema
  | refS : Reference → NormalSchema

/-- `Schema = CompositionSchema | NormalSchema` of the legacy schema
module. -/
inductive Schema where
  | comp : CompositionSchema → Schema
  | normal : NormalSchema → Schema
end

/-- The `exclusiveMaximum` keyword of a legacy `Schema` value - a boolean,
as in the 3.0-style openapis family. -/
def Schema.exclusiveMaximumOf : Schema → Option Bool
  | .normal (.numberS n) => n.exclusiveMaximum
  | .normal (.integerS n) => n.exclusiveMaximum
  | _ => none

/-- The `nullable` keyword of a legacy `Schema` value - declared `boolean`
on this family's `TypedSchema`. -/
def Schema.nullableOf : Schema → Option Bool
  | .normal (.numberS n) => n.nullable
  | .normal (.integerS n) => n.nullable
  | .normal (.stringS n) => n.nullable
  | .normal (.booleanS n) => n.nullable
  | .normal (.arrayS n) => n.nullable
  | .normal (.objectS n) => n.nullable
  | .normal (.freeFormS n) => n.nullable
  | _ => none

/-- `MediaType` of `types/swagger-schema-official/media.d.ts` (a single
interface in this family): `schema?`, `example?`, `examples?` and
`encoding?` are all ordinary optional fields with no `never` exclusion;
`E` is the `Encoding` knot. -/
structure MediaTypeF (E : Type) where
  extensions : Extensions
  schema : Option Schema
  example_ : Option Json
  examples : Option (List (String × (Example ⊕ Reference)))
  encoding : Option (List (String × E))

/-- `Encoding` of `types/swagger-schema-official/media.d.ts` (a single
interface); `H` is the `Header` knot. -/
structure EncodingF (H : Type) where
  extensions : Extensions
  contentType : Option String
  headers : Option (List (String × (H ⊕ Reference)))
  style : Option QueryParameterStyle
  explode : Option Bool
  allowReserved : Option Bool

/-- The legacy `Header` object: `Omit<HeaderParameter, 'name' | 'in'>`,
i.e. the flattened legacy `BaseParameter` payload fields with the header
`style` narrowing; `M` is the `MediaType` knot. -/
structure HeaderF (M : Type) where
  extensions : Extensions
  description : Option String
  required : Option Bool
  deprecated : Option Bool
  style : Option HeaderParameterStyle
  explode : Option Bool
  allowReserved : Option Bool
  schema : Option Schema
  example_ : Option Json
  examples : Option (List (String × (Example ⊕ Reference)))
  content : Option (List (String × M))

mutual
/-- The `MediaType` knot of the legacy media module. -/
inductive MediaType where
  | mk : MediaTypeF Encoding → MediaType

/-- The `Encoding` knot of the legacy media module. -/
inductive Encoding where
  | mk : EncodingF Header → Encoding

/-- The `Header` knot of the legacy header module. -/
inductive Header where
  | mk : HeaderF MediaType → Header
end

/-- `MediaTypeMap` of `types/swagger-schema-official/media.d.ts`. -/
abbrev MediaTypeMap := List (String × MediaType)

/-- Whether a legacy `MediaType` value carries the `example` field. -/
def MediaType.hasExample : MediaType → Bool
  | .mk m => m.example_.isSome

/-- Whether a legacy `MediaType` value carries the `examples` field. -/
def MediaType.hasExamples : MediaType → Bool
  | .mk m => m.examples.isSome

/-- `ParameterLocation = 'query' | 'path' | 'header' | 'cookie'` of
`types/swagger-schema-official/parameter.d.ts`. -/
inductive ParameterLocation where
  | query | path | header | cookie
deriving DecidableEq

/-- `PathParameter` of `types/swagger-schema-official/parameter.d.ts`,
flattened over `BaseParameter`: `in` is the literal `'path'`, `required`
the literal `true`, `style` narrowed to path styles; `schema?`,
`example?`, `examples?` and `content?` are all ordinary optional fields of
`BaseParameter` with no `never` exclusion between them. -/
structure PathParameter where
  extensions : Extensions
  name : String
  in_ : Lit "path"
  description : Option String
  required : Lit true
  deprecated : Option Bool
  style : Option PathParameterStyle
  explode : Option Bool
  allowReserved : Option Bool
  schema : Option Schema
  example_ : Option Json
  examples : Option (List (String × (Example ⊕ Reference)))
  content : Option MediaTypeMap

/-- `QueryParameter` of `types/swagger-schema-official/parameter.d.ts`,
flattened: adds `allowEmptyValue?` and narrows `style` to query styles. -/
structure QueryParameter where
  extensions : Extensions
  name : String
  in_ : Lit "query"
  description : Option String
  required : Option Bool
  deprecated : Option Bool
  allowEmptyValue : Option Bool
  style : Option QueryParameterStyle
  explode : Option Bool
  allowReserved : Option Bool
  schema : Option Schema
  example_ : Option Json
  examples : Option (List (String × (Example ⊕ Reference)))
  content : Option MediaTypeMap

/-- `HeaderParameter` of `types/swagger-schema-official/parameter.d.ts`,
flattened. -/
structure HeaderParameter where
  extensions : Extensions
  name : String
  in_ : Lit "header"
  description : Option String
  required : Option Bool
  deprecated : Option Bool
  style : Option HeaderParameterStyle
  explode : Option Bool
  allowReserved : Option Bool
  schema : Option Schema
  example_ : Option Json
  examples : Option (List (String × (Example ⊕ Reference)))
  content : Option MediaTypeMap

/-- `CookieParameter` of `types/swagger-schema-official/parameter.d.ts`,
flattened. -/
structure CookieParameter where
  extensions : Extensions
  name : String
  in_ : Lit "cookie"
  description : Option String
  required : Option Bool
  deprecated : Option Bool
  style : Option CookieParameterStyle
  explode : Option Bool
  allowReserved : Option Bool
  schema : Option Schema
  example_ : Option Json
  examples : Option (List (String × (Example ⊕ Reference)))
  content : Option MediaTypeMap

/-- `Parameter = PathParameter | QueryParameter | HeaderParameter |
CookieParameter` of `types/swagger-schema-official/parameter.d.ts`. -/
inductive Parameter where
  | path : PathParameter → Parameter
  | query : QueryParameter → Parameter
  | header : HeaderParameter → Parameter
  | cookie : CookieParameter → Parameter

/-- Whether a legacy `Parameter` value carries the `schema` field. -/
def Parameter.hasSchema : Parameter → Bool
  | .path p => p.schema.isSome
  | .query p => p.schema.isSome
  | .header p => p.schema.isSome
  | .cookie p => p.schema.isSome

/-- Whether a legacy `Parameter` value carries the `content` field. -/
def Parameter.hasContent : Parameter → Bool
  | .path p => p.content.isSome
  | .query p => p.content.isSome
  | .header p => p.content.isSome
  | .cookie p => p.content.isSome

/-- The value of the `required` field of a legacy `Parameter`, `none` when
absent; on `PathParameter` the field's literal type forces `some true`. -/
def Parameter.requiredValue : Parameter → Option Bool
  | .path p => some p.required.val
  | .query p => p.required
  | .header p => p.required
  | .cookie p => p.required

/-- The value of the `required` field of a legacy `PathParameter`. -/
def PathParameter.requiredValue (p : PathParameter) : Option Bool :=
  some p.required.val

end SW


/-- A minimal legacy boolean schema node, used as a payload sample. -/
def swBoolSchema : SW.Schema :=
  .normal (.booleanS
    { extensions := [], xml := none, externalDocs := none,
      example_ := none, type := ⟨⟩, nullable := none, readOnly := none,
      writeOnly := none })

/-- A minimal legacy media type object, used as a payload sample. -/
def swJsonMedia : SW.MediaType :=
  .mk
    { extensions := [], schema := none, example_ := none, examples := none,
      encoding := none }

/-- A legacy query parameter carrying BOTH a `schema` and a `content` map -
well-typed because the legacy `BaseParameter` declares both as ordinary
optional fields. -/
def swBothParam : SW.Parameter :=
  .query
    { extensions := [], name := "q", in_ := ⟨⟩, description := none,
      required := none, deprecated := none, allowEmptyValue := none,
      style := none, explode := none, allowReserved := none,
      schema := some swBoolSchema, example_ := none, examples := none,
      content := some [("application/json", swJsonMedia)] }

/-- A legacy `Reference` value carrying a `summary` sibling next to
`$ref` - well-typed because the legacy declaration includes the optional
`summary` field. -/
def swRefWithSummary : SW.Reference :=
  { ref := "#/components/schemas/Pet", summary := some "a pet",
    description := none }

/-- A minimal openapis `Info` object. -/
def sampleInfo : OA.Info :=
  { extensions := [], title := "Sample API", summary := none,
    description := none, termsOfService := none, contact := none,
    license := none, version := "1.0.0" }

/-- An empty openapis `PathItem`. -/
def emptyPathItem : OA.PathItem :=
  .mk
    { extensions := [], ref := none, summary := none, description := none,
      get := none, put := none, post := none, delete := none,
      options := none, head := none, patch := none, trace := none,
      server := none, parameters := none }

/-- An openapis root document whose `openapi` field renders to `3.0.3`
while carrying both `webhooks` and `jsonSchemaDialect` - well-typed because
the root type does not condition these fields on the version. -/
def doc30 : OA.OpenAPI :=
  { extensions := [], openapi := { seg1 := "0", seg2 := "3" },
    info := sampleInfo,
    jsonSchemaDialect := some "https://json-schema.org/draft/2020-12/schema",
    servers := none, paths := none,
    webhooks := some [("newPet", Sum.inl emptyPathItem)],
    components := none, security := none, tags := none,
    externalDocs := none }

/-- An extension entry of the 3.0-variant `Extendable` at the reserved key
`x-oai-custom`, carrying a value - well-typed because that variant declares
no reserved `never` signatures. -/
def oa30ReservedEntry : OA30.ExtEntry :=
  { rest := "oai-custom", value := Json.str "v" }

/-- An openapis simple query parameter carrying BOTH `example` and
`examples` - well-typed because `SimpleBaseParameter` declares both as
ordinary optional fields with no `never` split between them. -/
def oaBothExamplesParam : OA.Parameter :=
  .query (.simple
    { extensions := [], name := "q", in_ := ⟨⟩,
      description := none, required := none, deprecated := none,
      allowEmptyValue := none, style := none, explode := none,
      allowReserved := none, schema := none,
      example_ := some (Json.str "sample"),
      examples := some [("a", Sum.inr
        { ref := "#/components/examples/a", summary := none,
          description := none })],
      content := none })

/-- An openapis query parameter named `id`, used twice in
`dupPathItem`. -/
def dupParam : OA.Parameter :=
  .query (.simple
    { extensions := [], name := "id", in_ := ⟨⟩,
      description := none, required := none, deprecated := none,
      allowEmptyValue := none, style := none, explode := none,
      allowReserved := none, schema := none, example_ := none,
      examples := none, content := none })

/-- An openapis `PathItem` whose `parameters` list contains the same
`(name, location)` pair twice - well-typed because the declared type is a
plain array. -/
def dupPathItem : OA.PathItem :=
  .mk
    { extensions := [], ref := none, summary := none, description := none,
      get := none, put := none, post := none, delete := none,
      options := none, head := none, patch := none, trace := none,
      server := none,
      parameters := some [Sum.inl dupParam, Sum.inl dupParam] }

/-- A one-entry openapis `Paths` object. -/
def samplePaths : OA.Paths :=
  { entries := [.path "pets" emptyPathItem] }

/-- A minimal 3.0-style boolean schema node. -/
def v30BoolSchema : V30.Schema :=
  .booleanS
    { title := none, description := none, type := none,
      nullable := none, readOnly := none, writeOnly := none, xml := none,
      externalDocs := none, example_ := none, deprecated := none,
      enum := none, default := none }

/-- A 3.0-style array schema node (its mandatory `items` field holds the
boolean sample). -/
def v30ArraySample : V30.Schema :=
  .arrayS
    { title := none, description := none, type := some ⟨⟩,
      nullable := none, readOnly := none, writeOnly := none, xml := none,
      externalDocs := none, example_ := none, deprecated := none,
      enum := none, items := v30BoolSchema, maxItems := none,
      minItems := none, uniqueItems := none, default := none }

/-- A 3.0-style object schema node (its mandatory `properties` map holds
one entry). -/
def v30ObjectSample : V30.Schema :=
  .objectS
    { title := none, description := none, type := some ⟨⟩,
      nullable := none, readOnly := none, writeOnly := none, xml := none,
      externalDocs := none, example_ := none, deprecated := none,
      enum := none, properties := [("flag", v30BoolSchema)],
      required := none, default := none }

/-- A 3.0-style free-form object schema node - the only object-typed
variant without an enumerated `properties` map. -/
def v30FreeFormSample : V30.Schema :=
  .freeFormS
    { title := none, description := none, type := some ⟨⟩,
      nullable := none, readOnly := none, writeOnly := none, xml := none,
      externalDocs := none, example_ := none, deprecated := none,
      enum := none, additionalProperties := some (Sum.inl true),
      maxProperties := none, minProperties := none, default := none }

/-- A 3.0-style number schema node carrying the boolean `b` in
`exclusiveMaximum`, `exclusiveMinimum` and `nullable`. -/
def v30NumberSample (b : Bool) : V30.Schema :=
  .numberS
    { title := none, description := none, type := some ⟨⟩,
      nullable := some b, readOnly := none, writeOnly := none, xml := none,
      externalDocs := none, example_ := none, deprecated := none,
      enum := none, multipleOf := none, maximum := none,
      exclusiveMaximum := some b, minimum := none,
      exclusiveMinimum := some b, format := none, default := none }

/-- A 3.1-style number schema node carrying the number `n` in
`exclusiveMaximum` and `exclusiveMinimum`. -/
def v31NumberSample (n : JSNumber) : V31.Schema :=
  .numberS
    { title := none, description := none, schemaKw := none,
      vocabularyKw := none, idKw := none, anchorKw := none,
      dynamicAnchorKw := none, refKw := none, dynamicRefKw := none,
      defsKw := none, commentKw := none, type := some ⟨⟩, xml := none,
      externalDocs := none, example_ := none, enum := none, const := none,
      deprecated := none, readOnly := none, writeOnly := none,
      examples := none, multipleOf := none, maximum := none,
      exclusiveMaximum := some n, minimum := none,
      exclusiveMinimum := some n, format := none, default := none }

/-- A 3.1-style `TypedSchema` value whose `type` keyword is the array
`['number', 'null']` - the 3.1 way of expressing nullability. -/
def v31NullableTyped : V31.TypedSchema :=
  { title := none, description := none, schemaKw := none,
    vocabularyKw := none, idKw := none, anchorKw := none,
    dynamicAnchorKw := none, refKw := none, dynamicRefKw := none,
    defsKw := none, commentKw := none,
    type := some (Sum.inr [V31.SchemaType.number, V31.SchemaType.null]),
    xml := none, externalDocs := none, example_ := none, enum := none,
    const := none, default := none, deprecated := none, readOnly := none,
    writeOnly := none, examples := none }

/-- A legacy number schema node carrying the boolean `b` in
`exclusiveMaximum`, `exclusiveMinimum` and `nullable`. -/
def swNumberSample (b : Bool) : SW.Schema :=
  .normal (.numberS
    { extensions := [], xml := none, externalDocs := none,
      example_ := none, type := ⟨⟩, nullable := some b, readOnly := none,
      writeOnly := none, format := none, minimum := none, maximum := none,
      exclusiveMaximum := some b, exclusiveMinimum := some b,
      multipleOf := none })

/-- An optional field of type `never` (`Option Empty`) can never be
present. -/
theorem emptyOption_isSome (o : Option Empty) : o.isSome = false := by
  cases o with
  | none => rfl
  | some e => exact e.elim

/-- Membership in an `optKey` segment pins down both presence and the
key. -/
theorem mem_optKey {a k : String} {b : Bool} :
    a ∈ optKey k b ↔ b = true ∧ a = k := by
  cases b <;> simp [optKey]

/-- C1 counterexample: `swBothParam` is a value of the legacy `Parameter`
type that carries both `schema` and `content`, so it is false that, in both
families, no `Parameter` value carries both fields (and a fortiori false
that exactly one of them is always present). -/
theorem c1_counterexample :
    (swBothParam.hasSchema && swBothParam.hasContent) = true := rfl

/-- C1 amended: in the openapis family no `Parameter` value carries both
`schema` and `content` - the `never` typing of `BaseParameter.content`
(kept by every simple variant) and of `ComplexBaseParameter.schema` forbids
the combination; a value may however carry neither, and the legacy family
imposes no such exclusion at all (see the counterexample). -/
theorem c1_amended :
    ∀ p : OA.Parameter, (p.hasSchema && p.hasContent) = false := by
  intro p
  cases p with
  | path pp =>
      cases pp <;>
        simp [OA.Parameter.hasSchema, OA.Parameter.hasContent,
          emptyOption_isSome]
  | query pp =>
      cases pp <;>
        simp [OA.Parameter.hasSchema, OA.Parameter.hasContent,
          emptyOption_isSome]
  | header pp =>
      cases pp <;>
        simp [OA.Parameter.hasSchema, OA.Parameter.hasContent,
          emptyOption_isSome]
  | cookie pp =>
      cases pp <;>
        simp [OA.Parameter.hasSchema, OA.Parameter.hasContent,
          emptyOption_isSome]

/-- C2: in both type families, every value of the `PathParameter` type
carries `required` with the literal value `true` - the field is declared
mandatory with the boolean-literal type `true` on every variant, so a path
parameter with `required: false` or without `required` is not a value of
the type. -/
theorem c2_theorem :
    (∀ p : OA.PathParameter, p.requiredValue = some true) ∧
    (∀ p : SW.PathParameter, p.requiredValue = some true) := by
  constructor
  · intro p
    cases p <;> rfl
  · intro p
    rfl

/-- C3 counterexample: `swRefWithSummary` is a value of the legacy
`Reference` type carrying a `summary` sibling next to `$ref`, so it is
false that the legacy family excludes every sibling field. -/
theorem c3_counterexample :
    swRefWithSummary.ref = "#/components/schemas/Pet" ∧
    swRefWithSummary.summary = some "a pet" := ⟨rfl, rfl⟩

/-- C3 amended: in BOTH families a `Reference` value consists of exactly
the mandatory `$ref` and the optional `summary` / `description` overrides:
each `Reference` type is in bijection with such triples, so no other
sibling field can occur in either family. -/
theorem c3_amended :
    (∀ r : OA.Reference,
      (⟨r.ref, r.summary, r.description⟩ : OA.Reference) = r) ∧
    (∀ d : String × Option String × Option String,
      (OA.Reference.mk d.1 d.2.1 d.2.2).ref = d.1 ∧
      (OA.Reference.mk d.1 d.2.1 d.2.2).summary = d.2.1 ∧
      (OA.Reference.mk d.1 d.2.1 d.2.2).description = d.2.2) ∧
    (∀ r : SW.Reference,
      (⟨r.ref, r.summary, r.description⟩ : SW.Reference) = r) ∧
    (∀ d : String × Option String × Option String,
      (SW.Reference.mk d.1 d.2.1 d.2.2).ref = d.1 ∧
      (SW.Reference.mk d.1 d.2.1 d.2.2).summary = d.2.1 ∧
      (SW.Reference.mk d.1 d.2.1 d.2.2).description = d.2.2) :=
  ⟨fun _ => rfl, fun _ => ⟨rfl, rfl, rfl⟩, fun _ => rfl,
    fun _ => ⟨rfl, rfl, rfl⟩⟩

/-- C4 counterexample: `doc30` is a value of the `OpenAPI` root type whose
`openapi` field renders to `3.0.3` while both `webhooks` and
`jsonSchemaDialect` are present, so it is false that the type excludes
these keywords for documents whose version indicates 3.0.x. -/
theorem c4_counterexample :
    doc30.openapi.render = "3.0.3" ∧ doc30.webhooks.isSome = true ∧
    doc30.jsonSchemaDialect.isSome = true := ⟨rfl, rfl, rfl⟩

/-- C4 amended: the `openapi` discriminator of the root type is constrained
to the `3.x.y` template pattern, and `webhooks` / `jsonSchemaDialect` are
plain optional fields accepted at EVERY such version - the type does not
gate them on 3.1.x. -/
theorem c4_amended :
    (∀ d : OA.OpenAPI, ∃ a b, d.openapi.render = "3." ++ a ++ "." ++ b) ∧
    (∀ (s1 s2 : String) (i : OA.Info)
        (w : Option (List (String × (OA.PathItem ⊕ OA.Reference))))
        (j : Option String),
      ∃ d : OA.OpenAPI, d.openapi.render = "3." ++ s1 ++ "." ++ s2 ∧
        d.info = i ∧ d.webhooks = w ∧ d.jsonSchemaDialect = j) := by
  constructor
  · intro d
    exact ⟨d.openapi.seg1, d.openapi.seg2, rfl⟩
  · intro s1 s2 i w j
    exact
      ⟨{ extensions := [], openapi := ⟨s1, s2⟩, info := i,
         jsonSchemaDialect := j, servers := none, paths := none,
         webhooks := w, components := none, security := none,
         tags := none, externalDocs := none }, rfl, rfl, rfl, rfl⟩

/-- C5 counterexample: `oa30ReservedEntry` is an extension entry of the
3.0-variant `Extendable` whose key `x-oai-custom` matches the reserved
pattern yet carries a value, so it is false that in ALL families the
reserved `x-oai-` / `x-oas-` keys are typed `never`. -/
theorem c5_counterexample :
    oa30ReservedEntry.rest = "oai-custom" ∧
    reservedPrefix oa30ReservedEntry.rest = true ∧
    oa30ReservedEntry.value = Json.str "v" := ⟨rfl, rfl, rfl⟩

/-- C5 amended: in the openapis `common.d.ts` `Extendable` and in the
legacy `swagger-schema-official` `Extendable`, no extension entry can exist
at a reserved `x-oai-` / `x-oas-` key (the `never` index signatures), while
every non-reserved `x-` key accepts an arbitrary value; the 3.0-variant
`Extendable` declares only `x-${string}: any` and therefore admits reserved
keys too (see the counterexample). -/
theorem c5_amended :
    (∀ e : OA.ExtEntry, reservedPrefix e.rest = false) ∧
    (∀ e : SW.ExtEntry, reservedPrefix e.rest = false) ∧
    (∀ r : String, reservedPrefix r = false → ∀ j : Json,
      ∃ e : OA.ExtEntry, e.rest = r ∧ e.value = j) ∧
    (∀ r : String, reservedPrefix r = false → ∀ j : Json,
      ∃ e : SW.ExtEntry, e.rest = r ∧ e.value = j) :=
  ⟨fun e => e.notReserved, fun e => e.notReserved,
    fun r h j => ⟨⟨r, j, h⟩, rfl, rfl⟩,
    fun r h j => ⟨⟨r, j, h⟩, rfl, rfl⟩⟩

/-- C5 witness: the amended theorem applied at the concrete non-reserved
key `x-custom` with value `null`. -/
theorem c5_witness :
    ∃ e : OA.ExtEntry, e.rest = "custom" ∧ e.value = Json.null :=
  c5_amended.2.2.1 "custom" (by decide) Json.null

/-- C6 counterexample: `oaBothExamplesParam` is a value of the openapis
`Parameter` type (a simple query parameter) carrying both `example` and
`examples`, so it is false that the two fields are mutually exclusive on
simple parameters. -/
theorem c6_counterexample :
    (oaBothExamplesParam.hasExample && oaBothExamplesParam.hasExamples)
      = true := rfl

/-- C6 amended: `value` and `externalValue` are mutually exclusive on every
`Example` value in both families, and `example` / `examples` are mutually
exclusive on the openapis `MediaType` (enforced by the `never` split of its
two variants); simple parameters declare both `example` and `examples` as
ordinary optional fields with no structural exclusion (see the
counterexample), as does the legacy `MediaType`. -/
theorem c6_amended :
    (∀ e : OA.Example, (e.hasValue && e.hasExternalValue) = false) ∧
    (∀ e : SW.Example, (e.hasValue && e.hasExternalValue) = false) ∧
    (∀ m : OA.MediaType, (m.hasExample && m.hasExamples) = false) := by
  refine ⟨fun e => ?_, fun e => ?_, fun m => ?_⟩
  · cases e <;>
      simp [OA.Example.hasValue, OA.Example.hasExternalValue,
        emptyOption_isSome]
  · cases e <;>
      simp [SW.Example.hasValue, SW.Example.hasExternalValue]
  · cases m <;>
      simp [OA.MediaType.hasExample, OA.MediaType.hasExamples,
        emptyOption_isSome]

/-- C7 counterexample: `dupPathItem` is a value of the openapis `PathItem`
type whose `parameters` list contains the same parameter - hence the same
`(name, location)` pair - twice, so it is false that such a list is not a
value of the declared type. -/
theorem c7_counterexample :
    dupPathItem.parametersOf = some [Sum.inl dupParam, Sum.inl dupParam] ∧
    dupParam.keyOf = ("id", OA.ParameterLocation.query) := ⟨rfl, rfl⟩

/-- C7 amended: the `(name, location)` uniqueness of parameters is only
documented, not enforced by the declared type: `PathItem.parameters` is a
plain array type, and for EVERY parameter a `PathItem` containing that
parameter twice in its list is a value of the type. -/
theorem c7_amended :
    ∀ (p : OA.Parameter) (rest : List (OA.Parameter ⊕ OA.Reference)),
      ∃ pi : OA.PathItem,
        pi.parametersOf = some (Sum.inl p :: Sum.inl p :: rest) := by
  intro p rest
  exact
    ⟨.mk { extensions := [], ref := none, summary := none,
           description := none, get := none, put := none, post := none,
           delete := none, options := none, head := none, patch := none,
           trace := none, server := none,
           parameters := some (Sum.inl p :: Sum.inl p :: rest) }, rfl⟩

/-- No 3.1-style schema node has a `nullable` key among its top-level keys:
the 3.1 family declares no such member on any variant. -/
theorem v31_topKeys_no_nullable :
    ∀ s : V31.Schema, "nullable" ∉ s.topKeys := by
  intro s h
  cases s <;>
    simp [V31.Schema.topKeys, V31.baseKeys, V31.typedKeys,
      List.mem_append, mem_optKey] at h

/-- C8: the schema families diverge exactly as stated. In the 3.0-style
families (the openapis `schema.d.ts` and the legacy package),
`exclusiveMaximum` / `exclusiveMinimum` hold booleans and nullability is
the boolean `nullable` keyword; in the 3.1-style family they hold numbers,
the `type` enumeration contains `'null'` (and `TypedSchema.type` may be an
array including it), and no variant carries a `nullable` keyword. -/
theorem c8_theorem :
    (∀ b : Bool, ∃ s : V30.Schema, s.exclusiveMaximumOf = some b ∧
      s.exclusiveMinimumOf = some b ∧ s.nullableOf = some b) ∧
    (∀ b : Bool, ∃ s : SW.Schema, s.exclusiveMaximumOf = some b ∧
      s.nullableOf = some b) ∧
    (∀ n : JSNumber, ∃ s : V31.Schema, s.exclusiveMaximumOf = some n ∧
      s.exclusiveMinimumOf = some n) ∧
    (∀ t : V30.SchemaType, (t.render == "null") = false) ∧
    (∀ t : SW.SchemaType, (t.render == "null") = false) ∧
    (V31.SchemaType.null.render = "null") ∧
    (v31NullableTyped.type =
      some (Sum.inr [V31.SchemaType.number, V31.SchemaType.null])) ∧
    (∀ s : V31.Schema, s.topKeys.contains "nullable" = false) := by
  refine ⟨fun b => ⟨v30NumberSample b, rfl, rfl, rfl⟩,
    fun b => ⟨swNumberSample b, rfl, rfl⟩,
    fun n => ⟨v31NumberSample n, rfl, rfl⟩,
    fun t => ?_, fun t => ?_, rfl, rfl, fun s => ?_⟩
  · cases t <;> rfl
  · cases t <;> rfl
  · exact Bool.eq_false_iff.mpr
      (fun hc => v31_topKeys_no_nullable s (List.elem_iff.mp hc))

/-- C9: in every value of the openapis `Paths` type, each entry's key is
either a specification-extension key (beginning with `x-`) or begins with a
forward slash - the two index signatures are the only declared key
shapes. -/
theorem c9_theorem :
    ∀ (p : OA.Paths) (e : OA.PathsEntry), e ∈ p.entries →
      (∃ r, e.key = "x-" ++ r) ∨ (∃ r, e.key = "/" ++ r) := by
  intro p e _
  cases e with
  | path rest item => exact Or.inr ⟨rest, rfl⟩
  | ext x => exact Or.inl ⟨x.rest, rfl⟩

/-- C9 witness: the theorem applied to the concrete one-entry `Paths`
object `samplePaths` and its entry. -/
theorem c9_witness :
    (∃ r, (OA.PathsEntry.path "pets" emptyPathItem).key = "x-" ++ r) ∨
    (∃ r, (OA.PathsEntry.path "pets" emptyPathItem).key = "/" ++ r) :=
  c9_theorem samplePaths _ (List.mem_singleton.mpr rfl)

/-- C10: in the 3.0-style openapis schema family, every `ArraySchema`
value has `items` present (the field is mandatory) and every
`ObjectSchema` value has `properties` present; an object-typed schema
without an enumerated `properties` map can only be the separate
`FreeFormObjectSchema` variant. -/
theorem c10_theorem :
    (∀ s : V30.Schema, s.isArrayVariant = true →
      s.itemsOf.isSome = true) ∧
    (∀ s : V30.Schema, s.isObjectVariant = true →
      s.propertiesOf.isSome = true) ∧
    (∀ s : V30.Schema, (s.isObjectVariant || s.isFreeFormVariant) = true →
      s.propertiesOf = none → s.isFreeFormVariant = true) := by
  refine ⟨fun s h => ?_, fun s h => ?_, fun s h hp => ?_⟩
  · cases s <;> simp_all [V30.Schema.isArrayVariant, V30.Schema.itemsOf]
  · cases s <;>
      simp_all [V30.Schema.isObjectVariant, V30.Schema.propertiesOf]
  · cases s <;>
      simp_all [V30.Schema.isObjectVariant, V30.Schema.isFreeFormVariant,
        V30.Schema.propertiesOf]

/-- C10 witness: the theorem applied to the concrete array, object and
free-form samples. -/
theorem c10_witness :
    v30ArraySample.itemsOf.isSome = true ∧
    v30ObjectSample.propertiesOf.isSome = true ∧
    v30FreeFormSample.isFreeFormVariant = true :=
  ⟨c10_theorem.1 v30ArraySample rfl, c10_theorem.2.1 v30ObjectSample rfl,
    c10_theorem.2.2 v30FreeFormSample rfl rfl⟩
